import Mathlib

/-!
Shallow embedding of the socket-server room/relay state machine
(`src/index.ts` of prayag78/socket-server).

The three process-wide stores of the source are modelled as association
lists mirroring JavaScript `Map` (string keys), and member sets as lists
mirroring JavaScript `Set` (insertion-ordered, duplicate-free by
construction).  Each socket.io event handler becomes a pure function from
the server state to a new state plus a list of emissions; `socket.emit`
and `socket.to(room).emit` become the two constructors of `Emit`, and the
set of sockets an emission reaches is computed by `recipients` from the
membership table at emission time.  `Date.now()` is modelled by an
explicit `now : Nat` argument.
-/

namespace SocketServer

/-- Socket identifiers: opaque connection ids assigned by the transport. -/
abbrev SocketId := String

/-- Room identifiers: externally supplied strings. -/
abbrev RoomId := String

/-- `Map.get`: lookup of a string key in an association list. -/
def alookup {α : Type} : List (String × α) → String → Option α
  | [], _ => none
  | (k, v) :: t, k' => if k = k' then some v else alookup t k'

/-- `Map.set`: replace the value of an existing key, or append a new entry. -/
def aset {α : Type} : List (String × α) → String → α → List (String × α)
  | [], k, v => [(k, v)]
  | (k', v') :: t, k, v => if k' = k then (k, v) :: t else (k', v') :: aset t k v

/-- `Map.delete`: drop every entry with the given key. -/
def aerase {α : Type} : List (String × α) → String → List (String × α)
  | [], _ => []
  | (k', v) :: t, k => if k' = k then aerase t k else (k', v) :: aerase t k

/-- `Set.add`: append if not already present. -/
def sadd (l : List String) (x : String) : List String :=
  if x ∈ l then l else l ++ [x]

/-- `Set.delete`: remove the element from the set. -/
def sdel : List String → String → List String
  | [], _ => []
  | y :: t, x => if y = x then sdel t x else y :: sdel t x

/-- An editor position, the source's `\x7b line, ch \x7d` pair. -/
structure Pos where
  line : Int
  ch : Int
  deriving DecidableEq

/-- A selection range, the source's `\x7b anchor, head \x7d` pair. -/
structure Selection where
  anchor : Pos
  head : Pos
  deriving DecidableEq

/-- A user display descriptor, the source's `\x7b name, color \x7d` pair. -/
structure UserInfo where
  name : String
  color : String
  deriving DecidableEq

/-- One entry of a room's cursor map.  The source stores untyped objects;
the fields that the handlers actually write are `position`, `selection`,
`isVisible`, `userId`, `userInfo` and `timestamp`, each absent (`none`)
unless some handler has written it. -/
structure CursorRecord where
  position : Option Pos := none
  selection : Option Selection := none
  isVisible : Option Bool := none
  userId : Option String := none
  userInfo : Option UserInfo := none
  timestamp : Nat
  deriving DecidableEq

/-- The three process-wide stores of the source:
`activeRooms : Map<string, Set<string>>`,
`socketToRoom : Map<string, string>`,
`roomCursors : Map<string, Map<string, any>>`. -/
structure ServerState where
  activeRooms : List (RoomId × List SocketId)
  socketToRoom : List (SocketId × RoomId)
  roomCursors : List (RoomId × List (SocketId × CursorRecord))
  deriving DecidableEq

/-- The empty stores at process start. -/
def initState : ServerState :=
  { activeRooms := [], socketToRoom := [], roomCursors := [] }

/-- Inbound socket events (payload shapes from the source's interfaces;
opaque signaling payloads are kept as strings). -/
inductive InEvent where
  | joinRoom (roomId userId : String) (isCreating : Bool)
  | checkRoom (roomId : String)
  | codeChanged (roomId code : String)
  | inputChanged (roomId input : String)
  | changeLanguage (roomId language : String)
  | runCode (roomId output language input code : String)
  | executionStatus (roomId : String) (isRunning : Bool)
  | cursorMove (roomId : String) (position : Pos) (userId : String) (userInfo : UserInfo)
  | cursorSelection (roomId : String) (selection : Selection) (userId : String) (userInfo : UserInfo)
  | cursorVisibility (roomId : String) (isVisible : Bool) (userId : String) (userInfo : UserInfo)
  | callOffer (roomId offer fromUserId : String)
  | callAnswer (roomId answer fromUserId : String)
  | iceCandidate (roomId candidate fromUserId : String)
  | callRequest (roomId fromUserId : String)
  | callAccept (roomId fromUserId : String)
  | callReject (roomId fromUserId : String)
  | callEnd (roomId fromUserId : String)
  | userReadyForCall (roomId fromUserId : String)
  | disconnect
  deriving DecidableEq

/-- Outbound events, with exactly the payload fields the source emits. -/
inductive OutEvent where
  | roomJoined (roomId : String)
  | roomNotAvailable (message : String)
  | roomExists (roomId : String)
  | roomNotExists (roomId : String)
  | userJoined (userId : String) (socketId : SocketId)
  | userLeft (socketId : SocketId)
  | codeChanged (code : String)
  | inputChanged (input : String)
  | languageChanged (language : String)
  | codeRun (output language input code : String)
  | executionStatus (isRunning : Bool)
  | cursorMove (socketId : SocketId) (position : Pos) (userId : String) (userInfo : UserInfo)
  | cursorSelection (socketId : SocketId) (selection : Selection) (userId : String) (userInfo : UserInfo)
  | cursorVisibility (socketId : SocketId) (isVisible : Bool) (userId : String) (userInfo : UserInfo)
  | callOffer (offer fromUserId : String) (fromSocketId : SocketId)
  | callAnswer (answer fromUserId : String) (fromSocketId : SocketId)
  | iceCandidate (candidate fromUserId : String) (fromSocketId : SocketId)
  | callRequest (fromUserId : String) (fromSocketId : SocketId)
  | callAccept (fromUserId : String) (fromSocketId : SocketId)
  | callReject (fromUserId : String) (fromSocketId : SocketId)
  | callEnd (fromUserId : String) (fromSocketId : SocketId)
  | userReadyForCall (fromUserId : String) (fromSocketId : SocketId)
  deriving DecidableEq

/-- An emission: `socket.emit` (to the sender alone) or
`socket.to(room).emit` (room-scoped multicast excluding the sender). -/
inductive Emit where
  | toSender (socket : SocketId) (ev : OutEvent)
  | toRoom (room : RoomId) (sender : SocketId) (ev : OutEvent)
  deriving DecidableEq

/-- The outbound event carried by an emission. -/
def Emit.out : Emit → OutEvent
  | .toSender _ ev => ev
  | .toRoom _ _ ev => ev

/-- The member set of a room (empty for an untracked room). -/
def members (s : ServerState) (r : RoomId) : List SocketId :=
  (alookup s.activeRooms r).getD []

/-- The cursor record stored for a (room, connection) pair, if any. -/
def cursorRecord (s : ServerState) (r : RoomId) (c : SocketId) : Option CursorRecord :=
  match alookup s.roomCursors r with
  | some m => alookup m c
  | none => none

/-- The sockets an emission reaches: `socket.emit` reaches the sender,
`socket.to(room).emit` reaches every current member of the room except
the sender. -/
def recipients (s : ServerState) : Emit → List SocketId
  | .toSender sock _ => [sock]
  | .toRoom room sender _ => sdel (members s room) sender

/-- All (recipient, outbound event) deliveries of a list of emissions,
with recipients resolved against the state at emission time. -/
def deliveries (s : ServerState) : List Emit → List (SocketId × OutEvent)
  | [] => []
  | e :: t => (recipients s e).map (fun c => (c, e.out)) ++ deliveries s t

/-- The shared previous-room / disconnect cleanup block of the source:
remove the socket from the room's participant set and, if the set became
empty, delete the room entry and the room's cursor map. -/
def removeFromRoom (room : RoomId) (sock : SocketId) (s : ServerState) : ServerState :=
  match alookup s.activeRooms room with
  | some parts =>
      if sdel parts sock = [] then
        { s with activeRooms := aerase s.activeRooms room,
                 roomCursors := aerase s.roomCursors room }
      else
        { s with activeRooms := aset s.activeRooms room (sdel parts sock) }
  | none => s

/-- The attach block of the join handler: record the registry entry, add
the socket to the (possibly fresh) participant set, and ensure the room
has a cursor map. -/
def attachToRoom (sock : SocketId) (roomId : RoomId) (s : ServerState) : ServerState :=
  let s1 := { s with socketToRoom := aset s.socketToRoom sock roomId }
  let ps := sadd ((alookup s1.activeRooms roomId).getD []) sock
  let s2 := { s1 with activeRooms := aset s1.activeRooms roomId ps }
  if (alookup s2.roomCursors roomId).isSome then s2
  else { s2 with roomCursors := aset s2.roomCursors roomId [] }

/-- The `join-room` handler.  The previous-room cleanup is guarded by
`if (previousRoom)`, a JavaScript truthiness test that is false both for
a missing registry entry and for the empty-string room id, in which case
the whole detach block is skipped. -/
def joinRoomHandler (sock : SocketId) (roomId userId : String) (isCreating : Bool)
    (s : ServerState) : ServerState × List Emit :=
  if !(alookup s.activeRooms roomId).isSome && !isCreating then
    (s, [Emit.toSender sock (OutEvent.roomNotAvailable ("Room does not exist"))])
  else
    let s1 :=
      match alookup s.socketToRoom sock with
      | some prev => if prev = ("") then s else removeFromRoom prev sock s
      | none => s
    let s2 := attachToRoom sock roomId s1
    (s2, [Emit.toSender sock (OutEvent.roomJoined roomId),
          Emit.toRoom roomId sock (OutEvent.userJoined userId sock)])

/-- The body of the `disconnect` handler once the registry names a room:
membership leave (with empty-room deletion), cursor-record drop,
`user-left` emission, registry clear. -/
def disconnectCleanup (sock : SocketId) (roomId : RoomId) (s : ServerState) :
    ServerState × List Emit :=
  match alookup (removeFromRoom roomId sock s).roomCursors roomId with
  | some m =>
      ({ removeFromRoom roomId sock s with roomCursors := aset (removeFromRoom roomId sock s).roomCursors roomId (aerase m sock), socketToRoom := aerase (removeFromRoom roomId sock s).socketToRoom sock },
       [Emit.toRoom roomId sock (OutEvent.userLeft sock)])
  | none =>
      ({ removeFromRoom roomId sock s with socketToRoom := aerase (removeFromRoom roomId sock s).socketToRoom sock },
       [Emit.toRoom roomId sock (OutEvent.userLeft sock)])

/-- The `disconnect` handler.  The source guards the whole cleanup with
`if (roomId)`, a JavaScript truthiness test that is false both for a
missing registry entry and for the empty-string room id. -/
def disconnectHandler (sock : SocketId) (s : ServerState) : ServerState × List Emit :=
  match alookup s.socketToRoom sock with
  | none => (s, [])
  | some roomId => if roomId = ("") then (s, []) else disconnectCleanup sock roomId s

/-- The `cursor-move` handler. -/
def cursorMoveHandler (sock : SocketId) (now : Nat) (roomId : RoomId) (position : Pos)
    (userId : String) (userInfo : UserInfo) (s : ServerState) : ServerState × List Emit :=
  match alookup s.roomCursors roomId with
  | none => (s, [])
  | some m =>
      ({ s with roomCursors := aset s.roomCursors roomId (aset m sock
            { position := some position, userId := some userId,
              userInfo := some userInfo, timestamp := now }) },
       [Emit.toRoom roomId sock (OutEvent.cursorMove sock position userId userInfo)])

/-- The `cursor-selection` handler. -/
def cursorSelectionHandler (sock : SocketId) (now : Nat) (roomId : RoomId)
    (selection : Selection) (userId : String) (userInfo : UserInfo) (s : ServerState) :
    ServerState × List Emit :=
  match alookup s.roomCursors roomId with
  | none => (s, [])
  | some m =>
      let m' :=
        match alookup m sock with
        | some cur => aset m sock { cur with selection := some selection, timestamp := now }
        | none => m
      ({ s with roomCursors := aset s.roomCursors roomId m' },
       [Emit.toRoom roomId sock (OutEvent.cursorSelection sock selection userId userInfo)])

/-- The `cursor-visibility` handler. -/
def cursorVisibilityHandler (sock : SocketId) (now : Nat) (roomId : RoomId)
    (isVisible : Bool) (userId : String) (userInfo : UserInfo) (s : ServerState) :
    ServerState × List Emit :=
  match alookup s.roomCursors roomId with
  | none => (s, [])
  | some m =>
      let m' :=
        if isVisible then
          aset m sock { isVisible := some true, userId := some userId,
                        userInfo := some userInfo, timestamp := now }
        else aerase m sock
      ({ s with roomCursors := aset s.roomCursors roomId m' },
       [Emit.toRoom roomId sock (OutEvent.cursorVisibility sock isVisible userId userInfo)])

/-- One step of the event relay: dispatch an inbound event from socket
`sock` at time `now` against state `s`, returning the new state and the
emissions the handler performed. -/
def handle (sock : SocketId) (now : Nat) (e : InEvent) (s : ServerState) :
    ServerState × List Emit :=
  match e with
  | .joinRoom roomId userId isCreating => joinRoomHandler sock roomId userId isCreating s
  | .checkRoom roomId =>
      if (alookup s.activeRooms roomId).isSome then
        (s, [Emit.toSender sock (OutEvent.roomExists roomId)])
      else
        (s, [Emit.toSender sock (OutEvent.roomNotExists roomId)])
  | .codeChanged roomId code => (s, [Emit.toRoom roomId sock (OutEvent.codeChanged code)])
  | .inputChanged roomId input => (s, [Emit.toRoom roomId sock (OutEvent.inputChanged input)])
  | .changeLanguage roomId language =>
      (s, [Emit.toRoom roomId sock (OutEvent.languageChanged language)])
  | .runCode roomId output language input code =>
      (s, [Emit.toRoom roomId sock (OutEvent.codeRun output language input code)])
  | .executionStatus roomId isRunning =>
      (s, [Emit.toRoom roomId sock (OutEvent.executionStatus isRunning)])
  | .cursorMove roomId position userId userInfo =>
      cursorMoveHandler sock now roomId position userId userInfo s
  | .cursorSelection roomId selection userId userInfo =>
      cursorSelectionHandler sock now roomId selection userId userInfo s
  | .cursorVisibility roomId isVisible userId userInfo =>
      cursorVisibilityHandler sock now roomId isVisible userId userInfo s
  | .callOffer roomId offer fromUserId =>
      (s, [Emit.toRoom roomId sock (OutEvent.callOffer offer fromUserId sock)])
  | .callAnswer roomId answer fromUserId =>
      (s, [Emit.toRoom roomId sock (OutEvent.callAnswer answer fromUserId sock)])
  | .iceCandidate roomId candidate fromUserId =>
      (s, [Emit.toRoom roomId sock (OutEvent.iceCandidate candidate fromUserId sock)])
  | .callRequest roomId fromUserId =>
      (s, [Emit.toRoom roomId sock (OutEvent.callRequest fromUserId sock)])
  | .callAccept roomId fromUserId =>
      (s, [Emit.toRoom roomId sock (OutEvent.callAccept fromUserId sock)])
  | .callReject roomId fromUserId =>
      (s, [Emit.toRoom roomId sock (OutEvent.callReject fromUserId sock)])
  | .callEnd roomId fromUserId =>
      (s, [Emit.toRoom roomId sock (OutEvent.callEnd fromUserId sock)])
  | .userReadyForCall roomId fromUserId =>
      (s, [Emit.toRoom roomId sock (OutEvent.userReadyForCall fromUserId sock)])
  | .disconnect => disconnectHandler sock s

/-- Run a trace of (socket, time, event) triples from the empty stores. -/
def run (evs : List (SocketId × Nat × InEvent)) : ServerState :=
  evs.foldl (fun s t => (handle t.1 t.2.1 t.2.2 s).1) initState

/-- The wire name of an inbound event. -/
def inName : InEvent → String
  | .joinRoom _ _ _ => ("join-room")
  | .checkRoom _ => ("check-room")
  | .codeChanged _ _ => ("code-changed")
  | .inputChanged _ _ => ("input-changed")
  | .changeLanguage _ _ => ("change-language")
  | .runCode _ _ _ _ _ => ("run-code")
  | .executionStatus _ _ => ("execution-status")
  | .cursorMove _ _ _ _ => ("cursor-move")
  | .cursorSelection _ _ _ _ => ("cursor-selection")
  | .cursorVisibility _ _ _ _ => ("cursor-visibility")
  | .callOffer _ _ _ => ("call-offer")
  | .callAnswer _ _ _ => ("call-answer")
  | .iceCandidate _ _ _ => ("ice-candidate")
  | .callRequest _ _ => ("call-request")
  | .callAccept _ _ => ("call-accept")
  | .callReject _ _ => ("call-reject")
  | .callEnd _ _ => ("call-end")
  | .userReadyForCall _ _ => ("user-ready-for-call")
  | .disconnect => ("disconnect")

/-- The wire name of an outbound event. -/
def outName : OutEvent → String
  | .roomJoined _ => ("room-joined")
  | .roomNotAvailable _ => ("room-not-available")
  | .roomExists _ => ("room-exists")
  | .roomNotExists _ => ("room-not-exists")
  | .userJoined _ _ => ("user-joined")
  | .userLeft _ => ("user-left")
  | .codeChanged _ => ("code-changed")
  | .inputChanged _ => ("input-changed")
  | .languageChanged _ => ("language-changed")
  | .codeRun _ _ _ _ => ("code-run")
  | .executionStatus _ => ("execution-status")
  | .cursorMove _ _ _ _ => ("cursor-move")
  | .cursorSelection _ _ _ _ => ("cursor-selection")
  | .cursorVisibility _ _ _ _ => ("cursor-visibility")
  | .callOffer _ _ _ => ("call-offer")
  | .callAnswer _ _ _ => ("call-answer")
  | .iceCandidate _ _ _ => ("ice-candidate")
  | .callRequest _ _ => ("call-request")
  | .callAccept _ _ => ("call-accept")
  | .callReject _ _ => ("call-reject")
  | .callEnd _ _ => ("call-end")
  | .userReadyForCall _ _ => ("user-ready-for-call")

/-- The room named in an inbound payload's room field (the sender-supplied
routing key; `disconnect` carries none). -/
def InEvent.room : InEvent → RoomId
  | .joinRoom r _ _ => r
  | .checkRoom r => r
  | .codeChanged r _ => r
  | .inputChanged r _ => r
  | .changeLanguage r _ => r
  | .runCode r _ _ _ _ => r
  | .executionStatus r _ => r
  | .cursorMove r _ _ _ => r
  | .cursorSelection r _ _ _ => r
  | .cursorVisibility r _ _ _ => r
  | .callOffer r _ _ => r
  | .callAnswer r _ _ => r
  | .iceCandidate r _ _ => r
  | .callRequest r _ => r
  | .callAccept r _ => r
  | .callReject r _ => r
  | .callEnd r _ => r
  | .userReadyForCall r _ => r
  | .disconnect => ("")

/-- The single outbound event that a fan-out handler relays for an inbound
event, read off the source's `socket.to(roomId).emit(...)` calls (`none`
for the stateful `join-room` / `check-room` / `disconnect` events). -/
def relayOut (sock : SocketId) : InEvent → Option OutEvent
  | .codeChanged _ code => some (OutEvent.codeChanged code)
  | .inputChanged _ input => some (OutEvent.inputChanged input)
  | .changeLanguage _ language => some (OutEvent.languageChanged language)
  | .runCode _ output language input code => some (OutEvent.codeRun output language input code)
  | .executionStatus _ isRunning => some (OutEvent.executionStatus isRunning)
  | .cursorMove _ position userId userInfo =>
      some (OutEvent.cursorMove sock position userId userInfo)
  | .cursorSelection _ selection userId userInfo =>
      some (OutEvent.cursorSelection sock selection userId userInfo)
  | .cursorVisibility _ isVisible userId userInfo =>
      some (OutEvent.cursorVisibility sock isVisible userId userInfo)
  | .callOffer _ offer fromUserId => some (OutEvent.callOffer offer fromUserId sock)
  | .callAnswer _ answer fromUserId => some (OutEvent.callAnswer answer fromUserId sock)
  | .iceCandidate _ candidate fromUserId => some (OutEvent.iceCandidate candidate fromUserId sock)
  | .callRequest _ fromUserId => some (OutEvent.callRequest fromUserId sock)
  | .callAccept _ fromUserId => some (OutEvent.callAccept fromUserId sock)
  | .callReject _ fromUserId => some (OutEvent.callReject fromUserId sock)
  | .callEnd _ fromUserId => some (OutEvent.callEnd fromUserId sock)
  | .userReadyForCall _ fromUserId => some (OutEvent.userReadyForCall fromUserId sock)
  | .joinRoom _ _ _ => none
  | .checkRoom _ => none
  | .disconnect => none

/-- The store invariant maintained by every handler: tracked rooms are
nonempty, a room's cursor map exists exactly when the room is tracked,
membership in a room with a truthy (non-empty) identifier implies a
matching registry entry, and a registry entry implies membership.
Memberships of the empty-identifier room are exempt from the third
clause: the truthiness guards skip their cleanup, so they can be stale. -/
def Inv (s : ServerState) : Prop :=
  (∀ r parts, alookup s.activeRooms r = some parts → parts ≠ []) ∧
  (∀ r, (alookup s.activeRooms r).isSome ↔ (alookup s.roomCursors r).isSome) ∧
  (∀ c r parts, r ≠ ("") → alookup s.activeRooms r = some parts → c ∈ parts →
     alookup s.socketToRoom c = some r) ∧
  (∀ c r, alookup s.socketToRoom c = some r →
     ∃ parts, alookup s.activeRooms r = some parts ∧ c ∈ parts)

/-- The invariant weakened at one socket, as holds between the detach and
attach halves of a room switch: the socket may have a registry entry
without membership, and is a member of no room with a truthy identifier
(a stale membership of the empty-identifier room may remain). -/
def InvExcept (sock : SocketId) (s : ServerState) : Prop :=
  (∀ r parts, alookup s.activeRooms r = some parts → parts ≠ []) ∧
  (∀ r, (alookup s.activeRooms r).isSome ↔ (alookup s.roomCursors r).isSome) ∧
  (∀ c r parts, r ≠ ("") → alookup s.activeRooms r = some parts → c ∈ parts →
     alookup s.socketToRoom c = some r) ∧
  (∀ c r, c ≠ sock → alookup s.socketToRoom c = some r →
     ∃ parts, alookup s.activeRooms r = some parts ∧ c ∈ parts) ∧
  (∀ r parts, r ≠ ("") → alookup s.activeRooms r = some parts → sock ∉ parts)

theorem alookup_aset {α : Type} (l : List (String × α)) (k k' : String) (v : α) :
    alookup (aset l k v) k' = if k = k' then some v else alookup l k' := by
  induction l with
  | nil => simp [aset, alookup]
  | cons p t ih =>
      obtain ⟨hk, hv⟩ := p
      simp only [aset]
      by_cases h1 : hk = k
      · rw [if_pos h1]
        subst h1
        simp only [alookup]
        by_cases h2 : hk = k' <;> simp [h2]
      · rw [if_neg h1]
        simp only [alookup]
        by_cases h2 : hk = k'
        · have hkk : k ≠ k' := fun h => h1 (h2.trans h.symm)
          simp [h2, hkk]
        · simp [h2, ih]

theorem alookup_aerase {α : Type} (l : List (String × α)) (k k' : String) :
    alookup (aerase l k) k' = if k = k' then none else alookup l k' := by
  induction l with
  | nil => simp [aerase, alookup]
  | cons p t ih =>
      obtain ⟨hk, hv⟩ := p
      simp only [aerase]
      by_cases h1 : hk = k
      · rw [if_pos h1]
        subst h1
        rw [ih]
        by_cases h2 : hk = k' <;> simp [alookup, h2]
      · rw [if_neg h1]
        simp only [alookup]
        by_cases h2 : hk = k'
        · have hkk : k ≠ k' := fun h => h1 (h2.trans h.symm)
          simp [h2, hkk]
        · simp [h2, ih]

theorem aset_self {α : Type} (l : List (String × α)) (k : String) (v : α)
    (h : alookup l k = some v) : aset l k v = l := by
  induction l with
  | nil => simp [alookup] at h
  | cons p t ih =>
      obtain ⟨hk, hv⟩ := p
      simp only [alookup] at h
      simp only [aset]
      by_cases h1 : hk = k
      · rw [if_pos h1]
        rw [if_pos h1] at h
        injection h with h
        rw [h1, h]
      · rw [if_neg h1]
        rw [if_neg h1] at h
        rw [ih h]

theorem mem_sdel (l : List String) (x a : String) : a ∈ sdel l x ↔ a ∈ l ∧ a ≠ x := by
  induction l with
  | nil => simp [sdel]
  | cons y t ih =>
      simp only [sdel]
      by_cases h : y = x
      · rw [if_pos h]
        subst h
        rw [ih]
        simp only [List.mem_cons]
        constructor
        · exact fun ⟨ha, hne⟩ => ⟨Or.inr ha, hne⟩
        · rintro ⟨ha | ha, hne⟩
          · exact absurd ha hne
          · exact ⟨ha, hne⟩
      · rw [if_neg h]
        simp only [List.mem_cons, ih]
        constructor
        · rintro (rfl | ⟨ha, hne⟩)
          · exact ⟨Or.inl rfl, fun e => h e⟩
          · exact ⟨Or.inr ha, hne⟩
        · rintro ⟨rfl | ha, hne⟩
          · exact Or.inl rfl
          · exact Or.inr ⟨ha, hne⟩

theorem sdel_not_mem (l : List String) (x : String) : x ∉ sdel l x := by
  rw [mem_sdel]
  exact fun h => h.2 rfl

theorem sdel_sdel (l : List String) (x : String) : sdel (sdel l x) x = sdel l x := by
  induction l with
  | nil => rfl
  | cons y t ih =>
      simp only [sdel]
      by_cases h : y = x
      · rw [if_pos h]
        exact ih
      · rw [if_neg h]
        simp only [sdel]
        rw [if_neg h, ih]

theorem sdel_eq_of_not_mem (l : List String) (x : String) (h : x ∉ l) : sdel l x = l := by
  induction l with
  | nil => rfl
  | cons y t ih =>
      simp only [List.mem_cons, not_or] at h
      simp only [sdel]
      rw [if_neg (fun e => h.1 (e.symm)), ih h.2]

theorem mem_sadd (l : List String) (x a : String) : a ∈ sadd l x ↔ a ∈ l ∨ a = x := by
  unfold sadd
  by_cases h : x ∈ l
  · rw [if_pos h]
    exact ⟨Or.inl, fun hc => hc.elim id (fun e => e ▸ h)⟩
  · rw [if_neg h]
    simp

theorem sadd_ne_nil (l : List String) (x : String) : sadd l x ≠ [] := by
  unfold sadd
  by_cases h : x ∈ l
  · rw [if_pos h]
    intro he
    rw [he] at h
    exact absurd h (List.not_mem_nil x)
  · rw [if_neg h]
    simp

theorem removeFromRoom_not_tracked (room : RoomId) (sock : SocketId) (s : ServerState)
    (h : alookup s.activeRooms room = none) : removeFromRoom room sock s = s := by
  simp [removeFromRoom, h]

theorem removeFromRoom_last (room : RoomId) (sock : SocketId) (s : ServerState)
    (parts : List SocketId) (h : alookup s.activeRooms room = some parts)
    (he : sdel parts sock = []) :
    removeFromRoom room sock s =
      { s with activeRooms := aerase s.activeRooms room,
               roomCursors := aerase s.roomCursors room } := by
  simp [removeFromRoom, h, he]

theorem removeFromRoom_rest (room : RoomId) (sock : SocketId) (s : ServerState)
    (parts : List SocketId) (h : alookup s.activeRooms room = some parts)
    (he : sdel parts sock ≠ []) :
    removeFromRoom room sock s =
      { s with activeRooms := aset s.activeRooms room (sdel parts sock) } := by
  simp [removeFromRoom, h, he]

theorem attach_socketToRoom (sock : SocketId) (roomId : RoomId) (s : ServerState) :
    (attachToRoom sock roomId s).socketToRoom = aset s.socketToRoom sock roomId := by
  by_cases h : (alookup s.roomCursors roomId).isSome <;> simp [attachToRoom, h]

theorem attach_activeRooms (sock : SocketId) (roomId : RoomId) (s : ServerState) (r : RoomId) :
    alookup (attachToRoom sock roomId s).activeRooms r =
      if roomId = r then some (sadd ((alookup s.activeRooms roomId).getD []) sock)
      else alookup s.activeRooms r := by
  by_cases h : (alookup s.roomCursors roomId).isSome <;>
    simp [attachToRoom, h, alookup_aset]

theorem attach_roomCursors (sock : SocketId) (roomId : RoomId) (s : ServerState) (r : RoomId) :
    alookup (attachToRoom sock roomId s).roomCursors r =
      if roomId = r then some ((alookup s.roomCursors roomId).getD [])
      else alookup s.roomCursors r := by
  by_cases h : (alookup s.roomCursors roomId).isSome
  · obtain ⟨m, hm⟩ := Option.isSome_iff_exists.mp h
    simp only [attachToRoom, h, if_pos]
    by_cases h2 : roomId = r
    · subst h2
      simp [hm]
    · simp [h2]
  · have hn : alookup s.roomCursors roomId = none := Option.not_isSome_iff_eq_none.mp h
    simp [attachToRoom, h, alookup_aset, hn]

theorem joinRoomHandler_rejected (sock : SocketId) (roomId userId : String) (s : ServerState)
    (h : alookup s.activeRooms roomId = none) :
    joinRoomHandler sock roomId userId false s =
      (s, [Emit.toSender sock (OutEvent.roomNotAvailable ("Room does not exist"))]) := by
  simp [joinRoomHandler, h]

theorem joinRoomHandler_accepted (sock : SocketId) (roomId userId : String) (isCreating : Bool)
    (s : ServerState) (hg : (alookup s.activeRooms roomId).isSome ∨ isCreating = true) :
    joinRoomHandler sock roomId userId isCreating s =
      (attachToRoom sock roomId
        (match alookup s.socketToRoom sock with
         | some prev => if prev = ("") then s else removeFromRoom prev sock s
         | none => s),
       [Emit.toSender sock (OutEvent.roomJoined roomId),
        Emit.toRoom roomId sock (OutEvent.userJoined userId sock)]) := by
  have hc : (!(alookup s.activeRooms roomId).isSome && !isCreating) = false := by
    rcases hg with h | h
    · rw [h]
      rfl
    · rw [h]
      simp
  unfold joinRoomHandler
  rw [hc]
  simp

theorem disconnectHandler_joined (sock : SocketId) (s : ServerState) (room : RoomId)
    (hj : alookup s.socketToRoom sock = some room) (hre : room ≠ ("")) :
    disconnectHandler sock s = disconnectCleanup sock room s := by
  unfold disconnectHandler
  rw [hj]
  show (if room = ("") then (s, []) else disconnectCleanup sock room s) =
    disconnectCleanup sock room s
  rw [if_neg hre]

theorem disconnectHandler_empty (sock : SocketId) (s : ServerState)
    (hj : alookup s.socketToRoom sock = some ("")) :
    disconnectHandler sock s = (s, []) := by
  unfold disconnectHandler
  rw [hj]
  show (if ("" : String) = ("") then ((s, []) : ServerState × List Emit)
    else disconnectCleanup sock ("") s) = (s, [])
  rw [if_pos rfl]

theorem disconnectCleanup_nocursor (sock : SocketId) (roomId : RoomId) (s : ServerState)
    (hcm : alookup (removeFromRoom roomId sock s).roomCursors roomId = none) :
    disconnectCleanup sock roomId s =
      ({ removeFromRoom roomId sock s with socketToRoom := aerase (removeFromRoom roomId sock s).socketToRoom sock },
       [Emit.toRoom roomId sock (OutEvent.userLeft sock)]) := by
  unfold disconnectCleanup
  rw [hcm]

theorem disconnectCleanup_cursor (sock : SocketId) (roomId : RoomId) (s : ServerState)
    (m : List (SocketId × CursorRecord))
    (hcm : alookup (removeFromRoom roomId sock s).roomCursors roomId = some m) :
    disconnectCleanup sock roomId s =
      ({ removeFromRoom roomId sock s with roomCursors := aset (removeFromRoom roomId sock s).roomCursors roomId (aerase m sock), socketToRoom := aerase (removeFromRoom roomId sock s).socketToRoom sock },
       [Emit.toRoom roomId sock (OutEvent.userLeft sock)]) := by
  unfold disconnectCleanup
  rw [hcm]

theorem inv_initState : Inv initState := by
  refine ⟨?_, ?_, ?_, ?_⟩ <;> intro r <;> simp [initState, alookup]

theorem invExcept_of_inv_not_joined (sock : SocketId) (s : ServerState) (h : Inv s)
    (hn : alookup s.socketToRoom sock = none) : InvExcept sock s := by
  obtain ⟨h1, h2, h3, h4⟩ := h
  refine ⟨h1, h2, h3, fun c r _ hc => h4 c r hc, fun r parts hre hr hm => ?_⟩
  have hreg := h3 sock r parts hre hr hm
  rw [hn] at hreg
  exact Option.noConfusion hreg

theorem invExcept_of_inv_registry_empty (sock : SocketId) (s : ServerState) (h : Inv s)
    (hp : alookup s.socketToRoom sock = some ("")) : InvExcept sock s := by
  obtain ⟨h1, h2, h3, h4⟩ := h
  refine ⟨h1, h2, h3, fun c r _ hc => h4 c r hc, fun r parts hre hl hm => ?_⟩
  have hreg := h3 sock r parts hre hl hm
  rw [hp] at hreg
  injection hreg with he
  exact hre he.symm

theorem invExcept_removeFromRoom (sock : SocketId) (prev : RoomId) (s : ServerState)
    (h : Inv s) (hp : alookup s.socketToRoom sock = some prev) (hpe : prev ≠ ("")) :
    InvExcept sock (removeFromRoom prev sock s) := by
  obtain ⟨h1, h2, h3, h4⟩ := h
  cases hr : alookup s.activeRooms prev with
  | none =>
      rw [removeFromRoom_not_tracked _ _ _ hr]
      refine ⟨h1, h2, h3, fun c r _ hc => h4 c r hc, fun r parts hre hparts hm => ?_⟩
      have hreg := h3 sock r parts hre hparts hm
      rw [hp] at hreg
      injection hreg with he
      subst he
      rw [hr] at hparts
      exact Option.noConfusion hparts
  | some parts =>
      by_cases he : sdel parts sock = []
      · rw [removeFromRoom_last _ _ _ _ hr he]
        refine ⟨?_, ?_, ?_, ?_, ?_⟩
        · intro r parts0 hl
          rw [alookup_aerase] at hl
          by_cases hpr : prev = r
          · rw [if_pos hpr] at hl
            exact Option.noConfusion hl
          · rw [if_neg hpr] at hl
            exact h1 r parts0 hl
        · intro r
          simp only [alookup_aerase]
          by_cases hpr : prev = r
          · simp [hpr]
          · simp only [if_neg hpr]
            exact h2 r
        · intro c r parts0 hre hl hm
          rw [alookup_aerase] at hl
          by_cases hpr : prev = r
          · rw [if_pos hpr] at hl
            exact Option.noConfusion hl
          · rw [if_neg hpr] at hl
            exact h3 c r parts0 hre hl hm
        · intro c r hc hreg
          obtain ⟨parts1, hl1, hm1⟩ := h4 c r hreg
          refine ⟨parts1, ?_, hm1⟩
          rw [alookup_aerase]
          by_cases hpr : prev = r
          · exfalso
            rw [← hpr, hr] at hl1
            injection hl1 with hpp
            rw [← hpp] at hm1
            have hmem : c ∈ sdel parts sock := (mem_sdel _ _ _).mpr ⟨hm1, hc⟩
            rw [he] at hmem
            exact absurd hmem (List.not_mem_nil c)
          · rw [if_neg hpr]
            exact hl1
        · intro r parts0 hre hl hm
          rw [alookup_aerase] at hl
          by_cases hpr : prev = r
          · rw [if_pos hpr] at hl
            exact Option.noConfusion hl
          · rw [if_neg hpr] at hl
            have hreg := h3 sock r parts0 hre hl hm
            rw [hp] at hreg
            injection hreg with hre2
            exact hpr hre2
      · rw [removeFromRoom_rest _ _ _ _ hr he]
        refine ⟨?_, ?_, ?_, ?_, ?_⟩
        · intro r parts0 hl
          rw [alookup_aset] at hl
          by_cases hpr : prev = r
          · rw [if_pos hpr] at hl
            injection hl with hl2
            rw [← hl2]
            exact he
          · rw [if_neg hpr] at hl
            exact h1 r parts0 hl
        · intro r
          by_cases hpr : prev = r
          · subst hpr
            have h2p := (h2 prev).mp (by rw [hr]; rfl)
            simp [alookup_aset, h2p]
          · simp only [alookup_aset, if_neg hpr]
            exact h2 r
        · intro c r parts0 hre hl hm
          rw [alookup_aset] at hl
          by_cases hpr : prev = r
          · rw [if_pos hpr] at hl
            injection hl with hl2
            rw [← hl2] at hm
            have hmem := (mem_sdel _ _ _).mp hm
            rw [← hpr]
            exact h3 c prev parts hpe hr hmem.1
          · rw [if_neg hpr] at hl
            exact h3 c r parts0 hre hl hm
        · intro c r hc hreg
          obtain ⟨parts1, hl1, hm1⟩ := h4 c r hreg
          rw [alookup_aset]
          by_cases hpr : prev = r
          · rw [← hpr, hr] at hl1
            injection hl1 with hpp
            rw [← hpp] at hm1
            exact ⟨sdel parts sock, by rw [if_pos hpr], (mem_sdel _ _ _).mpr ⟨hm1, hc⟩⟩
          · rw [if_neg hpr]
            exact ⟨parts1, hl1, hm1⟩
        · intro r parts0 hre hl hm
          rw [alookup_aset] at hl
          by_cases hpr : prev = r
          · rw [if_pos hpr] at hl
            injection hl with hl2
            rw [← hl2] at hm
            exact sdel_not_mem _ _ hm
          · rw [if_neg hpr] at hl
            have hreg := h3 sock r parts0 hre hl hm
            rw [hp] at hreg
            injection hreg with hre2
            exact hpr hre2

theorem inv_attachToRoom (sock : SocketId) (roomId : RoomId) (s : ServerState)
    (h : InvExcept sock s) : Inv (attachToRoom sock roomId s) := by
  obtain ⟨h1, h2, h3, h4, h5⟩ := h
  refine ⟨?_, ?_, ?_, ?_⟩
  · intro r parts0 hl
    rw [attach_activeRooms] at hl
    by_cases hpr : roomId = r
    · rw [if_pos hpr] at hl
      injection hl with hl2
      rw [← hl2]
      exact sadd_ne_nil _ _
    · rw [if_neg hpr] at hl
      exact h1 r parts0 hl
  · intro r
    rw [attach_activeRooms, attach_roomCursors]
    by_cases hpr : roomId = r
    · simp [if_pos hpr]
    · simp only [if_neg hpr]
      exact h2 r
  · intro c r parts0 hre hl hm
    rw [attach_activeRooms] at hl
    rw [attach_socketToRoom, alookup_aset]
    by_cases hpr : roomId = r
    · rw [if_pos hpr] at hl
      injection hl with hl2
      rw [← hl2] at hm
      have hrid : roomId ≠ ("") := fun e => hre (hpr.symm.trans e)
      rcases (mem_sadd _ _ _).mp hm with hmm | hmm
      · cases hold : alookup s.activeRooms roomId with
        | none =>
            rw [hold] at hmm
            exact absurd hmm (List.not_mem_nil c)
        | some parts1 =>
            rw [hold] at hmm
            simp only [Option.getD_some] at hmm
            have hcs : c ≠ sock := fun hcc => h5 roomId parts1 hrid hold (hcc ▸ hmm)
            rw [if_neg (fun e => hcs e.symm)]
            rw [← hpr]
            exact h3 c roomId parts1 hrid hold hmm
      · rw [hmm, if_pos rfl, hpr]
    · rw [if_neg hpr] at hl
      have hcs : c ≠ sock := fun hcc => h5 r parts0 hre hl (hcc ▸ hm)
      rw [if_neg (fun e => hcs e.symm)]
      exact h3 c r parts0 hre hl hm
  · intro c r hreg
    rw [attach_socketToRoom, alookup_aset] at hreg
    rw [attach_activeRooms]
    by_cases hcs : sock = c
    · rw [if_pos hcs] at hreg
      injection hreg with hre
      rw [← hre, if_pos rfl]
      exact ⟨_, rfl, (mem_sadd _ _ _).mpr (Or.inr hcs.symm)⟩
    · rw [if_neg hcs] at hreg
      obtain ⟨parts1, hl1, hm1⟩ := h4 c r (fun e => hcs e.symm) hreg
      by_cases hpr : roomId = r
      · rw [if_pos hpr]
        rw [← hpr] at hl1
        rw [hl1]
        exact ⟨_, rfl, (mem_sadd _ _ _).mpr (Or.inl hm1)⟩
      · rw [if_neg hpr]
        exact ⟨parts1, hl1, hm1⟩

theorem inv_set_cursor_map (roomId : RoomId) (m' : List (SocketId × CursorRecord))
    (s : ServerState) (h : Inv s) (hm : (alookup s.roomCursors roomId).isSome) :
    Inv { s with roomCursors := aset s.roomCursors roomId m' } := by
  obtain ⟨h1, h2, h3, h4⟩ := h
  refine ⟨h1, ?_, h3, h4⟩
  intro r
  simp only [alookup_aset]
  by_cases hpr : roomId = r
  · rw [if_pos hpr]
    rw [← hpr]
    simp only [Option.isSome_some, iff_true]
    exact (h2 roomId).mpr hm
  · rw [if_neg hpr]
    exact h2 r

theorem invExcept_set_cursor_map (sock : SocketId) (roomId : RoomId)
    (m' : List (SocketId × CursorRecord)) (s : ServerState) (h : InvExcept sock s)
    (hm : (alookup s.roomCursors roomId).isSome) :
    InvExcept sock { s with roomCursors := aset s.roomCursors roomId m' } := by
  obtain ⟨h1, h2, h3, h4, h5⟩ := h
  refine ⟨h1, ?_, h3, h4, h5⟩
  intro r
  simp only [alookup_aset]
  by_cases hpr : roomId = r
  · rw [if_pos hpr]
    rw [← hpr]
    simp only [Option.isSome_some, iff_true]
    exact (h2 roomId).mpr hm
  · rw [if_neg hpr]
    exact h2 r

theorem inv_clear_registry (sock : SocketId) (s : ServerState) (h : InvExcept sock s) :
    Inv { s with socketToRoom := aerase s.socketToRoom sock } := by
  obtain ⟨h1, h2, h3, h4, h5⟩ := h
  refine ⟨h1, h2, ?_, ?_⟩
  · intro c r parts0 hre hl hm
    have hcs : c ≠ sock := fun hcc => h5 r parts0 hre hl (hcc ▸ hm)
    simp only [alookup_aerase]
    rw [if_neg (fun e => hcs e.symm)]
    exact h3 c r parts0 hre hl hm
  · intro c r hreg
    simp only [alookup_aerase] at hreg
    by_cases hcs : sock = c
    · rw [if_pos hcs] at hreg
      exact Option.noConfusion hreg
    · rw [if_neg hcs] at hreg
      exact h4 c r (fun e => hcs e.symm) hreg

theorem inv_joinRoomHandler (sock : SocketId) (roomId userId : String) (isCreating : Bool)
    (s : ServerState) (h : Inv s) : Inv (joinRoomHandler sock roomId userId isCreating s).1 := by
  by_cases hg : (!(alookup s.activeRooms roomId).isSome && !isCreating) = true
  · unfold joinRoomHandler
    rw [hg]
    simp only [if_true]
    exact h
  · have hg2 : (alookup s.activeRooms roomId).isSome ∨ isCreating = true := by
      rcases Bool.not_eq_true _ ▸ hg with _
      by_cases ha : (alookup s.activeRooms roomId).isSome
      · exact Or.inl ha
      · right
        by_cases hb : isCreating
        · exact hb
        · exfalso
          apply hg
          simp [ha, hb]
    rw [joinRoomHandler_accepted sock roomId userId isCreating s hg2]
    cases hj : alookup s.socketToRoom sock with
    | none =>
        simp only
        exact inv_attachToRoom _ _ _ (invExcept_of_inv_not_joined _ _ h hj)
    | some prev =>
        simp only
        by_cases hpe : prev = ("")
        · rw [if_pos hpe]
          rw [hpe] at hj
          exact inv_attachToRoom _ _ _ (invExcept_of_inv_registry_empty _ _ h hj)
        · rw [if_neg hpe]
          exact inv_attachToRoom _ _ _ (invExcept_removeFromRoom _ _ _ h hj hpe)

theorem inv_disconnectHandler (sock : SocketId) (s : ServerState) (h : Inv s) :
    Inv (disconnectHandler sock s).1 := by
  cases hj : alookup s.socketToRoom sock with
  | none =>
      unfold disconnectHandler
      rw [hj]
      exact h
  | some roomId =>
      by_cases hre : roomId = ("")
      · rw [hre] at hj
        rw [disconnectHandler_empty _ _ hj]
        exact h
      · rw [disconnectHandler_joined _ _ _ hj hre]
        have hx1 : InvExcept sock (removeFromRoom roomId sock s) :=
          invExcept_removeFromRoom _ _ _ h hj hre
        cases hm : alookup (removeFromRoom roomId sock s).roomCursors roomId with
        | none =>
            rw [disconnectCleanup_nocursor _ _ _ hm]
            exact inv_clear_registry _ _ hx1
        | some m =>
            rw [disconnectCleanup_cursor _ _ _ _ hm]
            exact inv_clear_registry _ _
              (invExcept_set_cursor_map _ _ _ _ hx1 (by rw [hm]; rfl))

theorem inv_cursorMoveHandler (sock : SocketId) (now : Nat) (roomId : RoomId) (position : Pos)
    (userId : String) (userInfo : UserInfo) (s : ServerState) (h : Inv s) :
    Inv (cursorMoveHandler sock now roomId position userId userInfo s).1 := by
  unfold cursorMoveHandler
  cases hm : alookup s.roomCursors roomId with
  | none => exact h
  | some m =>
      simp only
      exact inv_set_cursor_map _ _ _ h (by rw [hm]; rfl)

theorem inv_cursorSelectionHandler (sock : SocketId) (now : Nat) (roomId : RoomId)
    (selection : Selection) (userId : String) (userInfo : UserInfo) (s : ServerState)
    (h : Inv s) : Inv (cursorSelectionHandler sock now roomId selection userId userInfo s).1 := by
  unfold cursorSelectionHandler
  cases hm : alookup s.roomCursors roomId with
  | none => exact h
  | some m =>
      simp only
      exact inv_set_cursor_map _ _ _ h (by rw [hm]; rfl)

theorem inv_cursorVisibilityHandler (sock : SocketId) (now : Nat) (roomId : RoomId)
    (isVisible : Bool) (userId : String) (userInfo : UserInfo) (s : ServerState)
    (h : Inv s) : Inv (cursorVisibilityHandler sock now roomId isVisible userId userInfo s).1 := by
  unfold cursorVisibilityHandler
  cases hm : alookup s.roomCursors roomId with
  | none => exact h
  | some m =>
      simp only
      exact inv_set_cursor_map _ _ _ h (by rw [hm]; rfl)

theorem inv_handle (sock : SocketId) (now : Nat) (e : InEvent) (s : ServerState)
    (h : Inv s) : Inv (handle sock now e s).1 := by
  cases e with
  | joinRoom roomId userId isCreating => exact inv_joinRoomHandler _ _ _ _ _ h
  | checkRoom roomId =>
      unfold handle
      by_cases hc : (alookup s.activeRooms roomId).isSome <;> simp [hc] <;> exact h
  | cursorMove roomId position userId userInfo =>
      exact inv_cursorMoveHandler _ _ _ _ _ _ _ h
  | cursorSelection roomId selection userId userInfo =>
      exact inv_cursorSelectionHandler _ _ _ _ _ _ _ h
  | cursorVisibility roomId isVisible userId userInfo =>
      exact inv_cursorVisibilityHandler _ _ _ _ _ _ _ h
  | disconnect => exact inv_disconnectHandler _ _ h
  | codeChanged roomId code => exact h
  | inputChanged roomId input => exact h
  | changeLanguage roomId language => exact h
  | runCode roomId output language input code => exact h
  | executionStatus roomId isRunning => exact h
  | callOffer roomId offer fromUserId => exact h
  | callAnswer roomId answer fromUserId => exact h
  | iceCandidate roomId candidate fromUserId => exact h
  | callRequest roomId fromUserId => exact h
  | callAccept roomId fromUserId => exact h
  | callReject roomId fromUserId => exact h
  | callEnd roomId fromUserId => exact h
  | userReadyForCall roomId fromUserId => exact h

theorem inv_run (evs : List (SocketId × Nat × InEvent)) : Inv (run evs) := by
  have hgen : ∀ (l : List (SocketId × Nat × InEvent)) (s : ServerState), Inv s →
      Inv (l.foldl (fun s t => (handle t.1 t.2.1 t.2.2 s).1) s) := by
    intro l
    induction l with
    | nil => exact fun s hs => hs
    | cons t l ih => exact fun s hs => ih _ (inv_handle _ _ _ _ hs)
  exact hgen evs initState inv_initState

theorem cursorRecord_set_map (s : ServerState) (roomId : RoomId)
    (m' : List (SocketId × CursorRecord)) (r' : RoomId) (c' : SocketId) :
    cursorRecord { s with roomCursors := aset s.roomCursors roomId m' } r' c' =
      if roomId = r' then alookup m' c' else cursorRecord s r' c' := by
  unfold cursorRecord
  simp only [alookup_aset]
  by_cases h : roomId = r' <;> simp [h]

theorem cursorRecord_erase_map (s : ServerState) (roomId : RoomId) (r' : RoomId) (c' : SocketId) :
    cursorRecord { s with roomCursors := aerase s.roomCursors roomId } r' c' =
      if roomId = r' then none else cursorRecord s r' c' := by
  unfold cursorRecord
  simp only [alookup_aerase]
  by_cases h : roomId = r' <;> simp [h]

theorem removeFromRoom_cursorRecord_none (room : RoomId) (sock : SocketId) (s : ServerState)
    (r' : RoomId) (c' : SocketId) (h : cursorRecord s r' c' = none) :
    cursorRecord (removeFromRoom room sock s) r' c' = none := by
  cases hl : alookup s.activeRooms room with
  | none => rw [removeFromRoom_not_tracked _ _ _ hl]; exact h
  | some parts =>
      by_cases he : sdel parts sock = []
      · rw [removeFromRoom_last _ _ _ _ hl he]
        have hx := cursorRecord_erase_map { s with activeRooms := aerase s.activeRooms room }
          room r' c'
        by_cases hpr : room = r'
        · rw [hx, if_pos hpr]
        · rw [hx, if_neg hpr]
          exact h
      · rw [removeFromRoom_rest _ _ _ _ hl he]
        exact h

theorem attach_cursorRecord_none (sock : SocketId) (roomId : RoomId) (s : ServerState)
    (r' : RoomId) (c' : SocketId) (h : cursorRecord s r' c' = none) :
    cursorRecord (attachToRoom sock roomId s) r' c' = none := by
  unfold cursorRecord
  rw [attach_roomCursors]
  by_cases hpr : roomId = r'
  · rw [if_pos hpr]
    cases hm : alookup s.roomCursors roomId with
    | none => simp [alookup]
    | some m =>
        simp only [Option.getD_some]
        unfold cursorRecord at h
        rw [← hpr, hm] at h
        exact h
  · rw [if_neg hpr]
    unfold cursorRecord at h
    cases hm : alookup s.roomCursors r' with
    | none => rfl
    | some m =>
        rw [hm] at h
        exact h

theorem disconnect_cursorRecord_none (sock : SocketId) (s : ServerState)
    (r' : RoomId) (c' : SocketId) (h : cursorRecord s r' c' = none) :
    cursorRecord (disconnectHandler sock s).1 r' c' = none := by
  cases hj : alookup s.socketToRoom sock with
  | none =>
      unfold disconnectHandler
      rw [hj]
      exact h
  | some roomId =>
      by_cases hre : roomId = ("")
      · rw [hre] at hj
        rw [disconnectHandler_empty _ _ hj]
        exact h
      · rw [disconnectHandler_joined _ _ _ hj hre]
        have hs1 : cursorRecord (removeFromRoom roomId sock s) r' c' = none :=
          removeFromRoom_cursorRecord_none _ _ _ _ _ h
        cases hm : alookup (removeFromRoom roomId sock s).roomCursors roomId with
        | none =>
            rw [disconnectCleanup_nocursor _ _ _ hm]
            exact hs1
        | some m =>
            rw [disconnectCleanup_cursor _ _ _ _ hm]
            have hx : (if roomId = r' then alookup (aerase m sock) c'
                else cursorRecord (removeFromRoom roomId sock s) r' c') = none := by
              by_cases hpr : roomId = r'
              · rw [if_pos hpr, alookup_aerase]
                by_cases hsc : sock = c'
                · rw [if_pos hsc]
                · rw [if_neg hsc]
                  unfold cursorRecord at hs1
                  rw [← hpr, hm] at hs1
                  exact hs1
              · rw [if_neg hpr]
                exact hs1
            rw [← cursorRecord_set_map (removeFromRoom roomId sock s) roomId (aerase m sock)
              r' c'] at hx
            exact hx

/-- Claim C1: at every quiescent point of any event trace, a room id is a
key of `activeRooms` exactly when its member set is non-empty, and the
room's cursor map in `roomCursors` exists exactly when the room entry
does (they are created by the first successful join and deleted together
in the cleanup step that removes the last member). -/
theorem room_existence_invariant (evs : List (SocketId × Nat × InEvent)) (s : ServerState)
    (hs : s = run evs) (r : RoomId) :
    ((alookup s.activeRooms r).isSome ↔ members s r ≠ []) ∧
    ((alookup s.activeRooms r).isSome ↔ (alookup s.roomCursors r).isSome) := by
  subst hs
  obtain ⟨h1, h2, _, _⟩ := inv_run evs
  refine ⟨⟨?_, ?_⟩, h2 r⟩
  · intro hsome
    obtain ⟨parts, hp⟩ := Option.isSome_iff_exists.mp hsome
    unfold members
    rw [hp]
    exact h1 r parts hp
  · intro hne
    cases hl : alookup (run evs).activeRooms r with
    | none =>
        exfalso
        apply hne
        unfold members
        rw [hl]
        rfl
    | some parts => rfl

/-- Witness for C1 on the one-join trace. -/
theorem room_existence_invariant_witness :
    ((alookup (run [(("X"), 0, InEvent.joinRoom ("r1") ("u1") true)]).activeRooms ("r1")).isSome ↔
       members (run [(("X"), 0, InEvent.joinRoom ("r1") ("u1") true)]) ("r1") ≠ []) ∧
    ((alookup (run [(("X"), 0, InEvent.joinRoom ("r1") ("u1") true)]).activeRooms ("r1")).isSome ↔
       (alookup (run [(("X"), 0, InEvent.joinRoom ("r1") ("u1") true)]).roomCursors ("r1")).isSome) :=
  room_existence_invariant [(("X"), 0, InEvent.joinRoom ("r1") ("u1") true)] _ rfl ("r1")

/-- Counterexample to C2 as stated: `join-room` with the empty-string
room id succeeds (the guard is a genuine presence check), but the
previous-room cleanup is guarded by JavaScript truthiness, which is
false for `""`.  After X joins room `""` (creating) and then room `"R"`
(creating), X sits in both member sets while the registry names `"R"`,
so X is in two rooms and its membership of `""` does not match the
registry entry. -/
theorem empty_room_dual_membership_counterexample :
    alookup (run [(("X"), 0, InEvent.joinRoom ("") ("u1") true), (("X"), 1, InEvent.joinRoom ("R") ("u1") true)]).activeRooms ("") = some [("X")] ∧
    alookup (run [(("X"), 0, InEvent.joinRoom ("") ("u1") true), (("X"), 1, InEvent.joinRoom ("R") ("u1") true)]).activeRooms ("R") = some [("X")] ∧
    alookup (run [(("X"), 0, InEvent.joinRoom ("") ("u1") true), (("X"), 1, InEvent.joinRoom ("R") ("u1") true)]).socketToRoom ("X") = some ("R") ∧
    (("") : String) ≠ ("R") := by
  refine ⟨by decide, by decide, by decide, by decide⟩

/-- Claim C2 (amended): in every reachable state, and restricted to rooms
with a truthy (non-empty) identifier: membership implies a matching
`socketToRoom` entry, a connection is in at most one such room's member
set, and a connection without a registry entry is in no such room's
member set.  Memberships of the empty-identifier room `""` are exempt:
its cleanup is skipped by the `if (previousRoom)` / `if (roomId)`
truthiness guards, so they can be stale. -/
theorem membership_registry_consistent_amended (evs : List (SocketId × Nat × InEvent))
    (s : ServerState) (hs : s = run evs) :
    (∀ sock r parts, r ≠ ("") → alookup s.activeRooms r = some parts → sock ∈ parts →
       alookup s.socketToRoom sock = some r) ∧
    (∀ sock r r' parts parts', r ≠ ("") → r' ≠ ("") →
       alookup s.activeRooms r = some parts → sock ∈ parts →
       alookup s.activeRooms r' = some parts' → sock ∈ parts' → r = r') ∧
    (∀ sock, alookup s.socketToRoom sock = none →
       ∀ r parts, r ≠ ("") → alookup s.activeRooms r = some parts → sock ∉ parts) := by
  subst hs
  obtain ⟨_, _, h3, _⟩ := inv_run evs
  refine ⟨fun sock r parts hre hr hm => h3 sock r parts hre hr hm, ?_, ?_⟩
  · intro sock r r' parts parts' hre hre' hr hm hr' hm'
    have e1 := h3 sock r parts hre hr hm
    have e2 := h3 sock r' parts' hre' hr' hm'
    rw [e1] at e2
    exact Option.some.inj e2
  · intro sock hn r parts hre hr hm
    have e1 := h3 sock r parts hre hr hm
    rw [hn] at e1
    exact Option.noConfusion e1

/-- Witness for the amended C2 on the one-join trace. -/
theorem membership_registry_consistent_amended_witness :
    ((∀ sock r parts, r ≠ ("") →
        alookup (run [(("X"), 0, InEvent.joinRoom ("r1") ("u1") true)]).activeRooms r =
          some parts → sock ∈ parts →
        alookup (run [(("X"), 0, InEvent.joinRoom ("r1") ("u1") true)]).socketToRoom sock =
          some r) ∧
     (∀ sock r r' parts parts', r ≠ ("") → r' ≠ ("") →
        alookup (run [(("X"), 0, InEvent.joinRoom ("r1") ("u1") true)]).activeRooms r =
          some parts → sock ∈ parts →
        alookup (run [(("X"), 0, InEvent.joinRoom ("r1") ("u1") true)]).activeRooms r' =
          some parts' → sock ∈ parts' → r = r') ∧
     (∀ sock,
        alookup (run [(("X"), 0, InEvent.joinRoom ("r1") ("u1") true)]).socketToRoom sock =
          none →
        ∀ r parts, r ≠ ("") →
          alookup (run [(("X"), 0, InEvent.joinRoom ("r1") ("u1") true)]).activeRooms r =
            some parts → sock ∉ parts)) :=
  membership_registry_consistent_amended [(("X"), 0, InEvent.joinRoom ("r1") ("u1") true)] _
    rfl

/-- Claim C5: a join of a room absent from `activeRooms` with
`isCreating = false` leaves the whole state unchanged and emits exactly
one `room-not-available`, delivered to the sender only. -/
theorem join_nonexistent_no_mutation (s : ServerState) (sock : SocketId) (now : Nat)
    (roomId userId : String) (h : alookup s.activeRooms roomId = none) :
    handle sock now (InEvent.joinRoom roomId userId false) s =
      (s, [Emit.toSender sock (OutEvent.roomNotAvailable ("Room does not exist"))]) ∧
    recipients s (Emit.toSender sock (OutEvent.roomNotAvailable ("Room does not exist"))) =
      [sock] :=
  ⟨joinRoomHandler_rejected sock roomId userId s h, rfl⟩

/-- Witness for C5: joining the absent room on the empty state. -/
theorem join_nonexistent_no_mutation_witness :
    handle ("X") 0 (InEvent.joinRoom ("nope") ("u1") false) initState =
      (initState, [Emit.toSender ("X") (OutEvent.roomNotAvailable ("Room does not exist"))]) ∧
    recipients initState
        (Emit.toSender ("X") (OutEvent.roomNotAvailable ("Room does not exist"))) = [("X")] :=
  join_nonexistent_no_mutation initState ("X") 0 ("nope") ("u1") rfl

/-- Claim C10: a disconnect of a connection with no `socketToRoom` entry
changes nothing and emits nothing. -/
theorem disconnect_unjoined_noop (s : ServerState) (sock : SocketId) (now : Nat)
    (h : alookup s.socketToRoom sock = none) :
    handle sock now InEvent.disconnect s = (s, []) := by
  show disconnectHandler sock s = (s, [])
  unfold disconnectHandler
  rw [h]

/-- Witness for C10: a disconnect of a never-joined socket after one join
by another socket. -/
theorem disconnect_unjoined_noop_witness :
    handle ("Z") 4 InEvent.disconnect (run [(("X"), 0, InEvent.joinRoom ("r1") ("u1") true)]) =
      (run [(("X"), 0, InEvent.joinRoom ("r1") ("u1") true)], []) :=
  disconnect_unjoined_noop (run [(("X"), 0, InEvent.joinRoom ("r1") ("u1") true)]) ("Z") 4
    (by decide)

theorem checkRoom_state (sock : SocketId) (now : Nat) (roomId : RoomId) (s : ServerState) :
    (handle sock now (InEvent.checkRoom roomId) s).1 = s := by
  show (if (alookup s.activeRooms roomId).isSome = true
        then (s, [Emit.toSender sock (OutEvent.roomExists roomId)])
        else (s, [Emit.toSender sock (OutEvent.roomNotExists roomId)])).1 = s
  by_cases hc : (alookup s.activeRooms roomId).isSome = true
  · rw [if_pos hc]
  · rw [if_neg hc]

theorem cursorMoveHandler_none (sock : SocketId) (now : Nat) (roomId : RoomId) (p : Pos)
    (u : String) (ui : UserInfo) (s : ServerState)
    (hm : alookup s.roomCursors roomId = none) :
    cursorMoveHandler sock now roomId p u ui s = (s, []) := by
  unfold cursorMoveHandler
  rw [hm]

theorem cursorMoveHandler_update (sock : SocketId) (now : Nat) (roomId : RoomId) (p : Pos)
    (u : String) (ui : UserInfo) (s : ServerState) (m : List (SocketId × CursorRecord))
    (hm : alookup s.roomCursors roomId = some m) :
    cursorMoveHandler sock now roomId p u ui s =
      ({ s with roomCursors := aset s.roomCursors roomId (aset m sock { position := some p, selection := none, isVisible := none, userId := some u, userInfo := some ui, timestamp := now }) },
       [Emit.toRoom roomId sock (OutEvent.cursorMove sock p u ui)]) := by
  unfold cursorMoveHandler
  rw [hm]

theorem cursorSelectionHandler_none (sock : SocketId) (now : Nat) (roomId : RoomId)
    (sel : Selection) (u : String) (ui : UserInfo) (s : ServerState)
    (hm : alookup s.roomCursors roomId = none) :
    cursorSelectionHandler sock now roomId sel u ui s = (s, []) := by
  unfold cursorSelectionHandler
  rw [hm]

theorem cursorSelectionHandler_update (sock : SocketId) (now : Nat) (roomId : RoomId)
    (sel : Selection) (u : String) (ui : UserInfo) (s : ServerState)
    (m : List (SocketId × CursorRecord)) (hm : alookup s.roomCursors roomId = some m) :
    cursorSelectionHandler sock now roomId sel u ui s =
      ({ s with roomCursors := aset s.roomCursors roomId (match alookup m sock with | some cur => aset m sock { cur with selection := some sel, timestamp := now } | none => m) },
       [Emit.toRoom roomId sock (OutEvent.cursorSelection sock sel u ui)]) := by
  unfold cursorSelectionHandler
  rw [hm]

theorem cursorVisibilityHandler_none (sock : SocketId) (now : Nat) (roomId : RoomId)
    (vis : Bool) (u : String) (ui : UserInfo) (s : ServerState)
    (hm : alookup s.roomCursors roomId = none) :
    cursorVisibilityHandler sock now roomId vis u ui s = (s, []) := by
  unfold cursorVisibilityHandler
  rw [hm]

theorem cursorVisibilityHandler_update (sock : SocketId) (now : Nat) (roomId : RoomId)
    (vis : Bool) (u : String) (ui : UserInfo) (s : ServerState)
    (m : List (SocketId × CursorRecord)) (hm : alookup s.roomCursors roomId = some m) :
    cursorVisibilityHandler sock now roomId vis u ui s =
      ({ s with roomCursors := aset s.roomCursors roomId (if vis then aset m sock { position := none, selection := none, isVisible := some true, userId := some u, userInfo := some ui, timestamp := now } else aerase m sock) },
       [Emit.toRoom roomId sock (OutEvent.cursorVisibility sock vis u ui)]) := by
  unfold cursorVisibilityHandler
  rw [hm]

/-- Claim C7: a `cursor-selection` with no stored record for the
(room, sender) pair leaves the state unchanged; with a record, only its
`selection` and `timestamp` fields change (no other record or store is
touched); and across all events, a cursor record is created only by a
`cursor-move` or a `cursor-visibility` with `isVisible = true`, for the
sender itself in the payload's room. -/
theorem cursor_selection_upsert_semantics (s : ServerState) (sock : SocketId) (now : Nat)
    (r : RoomId) (sel : Selection) (u : String) (ui : UserInfo) :
    (cursorRecord s r sock = none →
       (handle sock now (InEvent.cursorSelection r sel u ui) s).1 = s) ∧
    (∀ cur, cursorRecord s r sock = some cur →
       cursorRecord (handle sock now (InEvent.cursorSelection r sel u ui) s).1 r sock =
         some { cur with selection := some sel, timestamp := now } ∧
       (∀ r' c', r' ≠ r ∨ c' ≠ sock →
          cursorRecord (handle sock now (InEvent.cursorSelection r sel u ui) s).1 r' c' =
            cursorRecord s r' c') ∧
       (handle sock now (InEvent.cursorSelection r sel u ui) s).1.activeRooms = s.activeRooms ∧
       (handle sock now (InEvent.cursorSelection r sel u ui) s).1.socketToRoom =
         s.socketToRoom) ∧
    (∀ (e : InEvent) (r' : RoomId) (c' : SocketId),
       cursorRecord s r' c' = none →
       cursorRecord (handle sock now e s).1 r' c' ≠ none →
       (∃ p u' ui', e = InEvent.cursorMove r' p u' ui' ∧ c' = sock) ∨
       (∃ u' ui', e = InEvent.cursorVisibility r' true u' ui' ∧ c' = sock)) := by
  refine ⟨?_, ?_, ?_⟩
  · intro hn
    show (cursorSelectionHandler sock now r sel u ui s).1 = s
    cases hm : alookup s.roomCursors r with
    | none => rw [cursorSelectionHandler_none sock now r sel u ui s hm]
    | some m =>
        rw [cursorSelectionHandler_update sock now r sel u ui s m hm]
        have hn' : alookup m sock = none := by
          unfold cursorRecord at hn
          rw [hm] at hn
          exact hn
        simp only
        rw [hn']
        show { s with roomCursors := aset s.roomCursors r m } = s
        rw [aset_self _ _ _ hm]
  · intro cur hc
    have hm0 : ∃ m, alookup s.roomCursors r = some m ∧ alookup m sock = some cur := by
      unfold cursorRecord at hc
      cases hm : alookup s.roomCursors r with
      | none => rw [hm] at hc; exact Option.noConfusion hc
      | some m => rw [hm] at hc; exact ⟨m, rfl, hc⟩
    obtain ⟨m, hm, hcur⟩ := hm0
    have hred : (handle sock now (InEvent.cursorSelection r sel u ui) s).1 = { s with roomCursors := aset s.roomCursors r (aset m sock { cur with selection := some sel, timestamp := now }) } := by
      show (cursorSelectionHandler sock now r sel u ui s).1 = _
      rw [cursorSelectionHandler_update sock now r sel u ui s m hm]
      simp only
      rw [hcur]
    rw [hred]
    refine ⟨?_, ?_, rfl, rfl⟩
    · rw [cursorRecord_set_map, if_pos rfl, alookup_aset, if_pos rfl]
    · intro r' c' hne
      rw [cursorRecord_set_map]
      by_cases hpr : r = r'
      · rw [if_pos hpr]
        rcases hne with hne | hne
        · exact absurd hpr.symm hne
        · rw [alookup_aset, if_neg (fun e => hne e.symm)]
          unfold cursorRecord
          rw [← hpr, hm]
      · rw [if_neg hpr]
  · intro e r' c' hn1 hn2
    cases e with
    | joinRoom roomId userId isCreating =>
        exfalso
        have hn2' : cursorRecord (joinRoomHandler sock roomId userId isCreating s).1 r' c' ≠
            none := hn2
        by_cases hg : (!(alookup s.activeRooms roomId).isSome && !isCreating) = true
        · apply hn2'
          unfold joinRoomHandler
          rw [hg]
          simp only [if_true]
          exact hn1
        · have hg2 : (alookup s.activeRooms roomId).isSome ∨ isCreating = true := by
            by_cases ha : (alookup s.activeRooms roomId).isSome
            · exact Or.inl ha
            · right
              by_cases hb : isCreating
              · exact hb
              · exact absurd (by simp [ha, hb]) hg
          rw [joinRoomHandler_accepted sock roomId userId isCreating s hg2] at hn2'
          apply hn2'
          cases hj : alookup s.socketToRoom sock with
          | none =>
              simp only
              exact attach_cursorRecord_none _ _ _ _ _ hn1
          | some prev =>
              simp only
              by_cases hpe : prev = ("")
              · rw [if_pos hpe]
                exact attach_cursorRecord_none _ _ _ _ _ hn1
              · rw [if_neg hpe]
                exact attach_cursorRecord_none _ _ _ _ _
                  (removeFromRoom_cursorRecord_none _ _ _ _ _ hn1)
    | checkRoom roomId =>
        rw [checkRoom_state] at hn2
        exact absurd hn1 hn2
    | disconnect =>
        exact absurd (disconnect_cursorRecord_none sock s r' c' hn1) hn2
    | cursorMove roomId p u' ui' =>
        have hn2' : cursorRecord (cursorMoveHandler sock now roomId p u' ui' s).1 r' c' ≠
            none := hn2
        cases hm : alookup s.roomCursors roomId with
        | none =>
            rw [cursorMoveHandler_none _ _ _ _ _ _ _ hm] at hn2'
            exact absurd hn1 hn2'
        | some m =>
            rw [cursorMoveHandler_update _ _ _ _ _ _ _ m hm] at hn2'
            have hn2'' : (if roomId = r' then alookup (aset m sock { position := some p, selection := none, isVisible := none, userId := some u', userInfo := some ui', timestamp := now }) c' else cursorRecord s r' c') ≠ none := by
              rw [← cursorRecord_set_map]
              exact hn2'
            by_cases hpr : roomId = r'
            · rw [if_pos hpr, alookup_aset] at hn2''
              by_cases hsc : sock = c'
              · exact Or.inl ⟨p, u', ui', by rw [hpr], hsc.symm⟩
              · exfalso
                rw [if_neg hsc] at hn2''
                unfold cursorRecord at hn1
                rw [← hpr, hm] at hn1
                exact hn2'' hn1
            · rw [if_neg hpr] at hn2''
              exact absurd hn1 hn2''
    | cursorSelection roomId sel' u' ui' =>
        exfalso
        have hn2' : cursorRecord (cursorSelectionHandler sock now roomId sel' u' ui' s).1
            r' c' ≠ none := hn2
        cases hm : alookup s.roomCursors roomId with
        | none =>
            rw [cursorSelectionHandler_none _ _ _ _ _ _ _ hm] at hn2'
            exact hn2' hn1
        | some m =>
            rw [cursorSelectionHandler_update _ _ _ _ _ _ _ m hm] at hn2'
            have hn2'' : (if roomId = r' then alookup (match alookup m sock with | some cur => aset m sock { cur with selection := some sel', timestamp := now } | none => m) c' else cursorRecord s r' c') ≠ none := by
              rw [← cursorRecord_set_map]
              exact hn2'
            by_cases hpr : roomId = r'
            · rw [if_pos hpr] at hn2''
              cases hcur : alookup m sock with
              | none =>
                  rw [hcur] at hn2''
                  unfold cursorRecord at hn1
                  rw [← hpr, hm] at hn1
                  exact hn2'' hn1
              | some cur =>
                  rw [hcur] at hn2''
                  have hn3 : (if sock = c' then some { cur with selection := some sel', timestamp := now } else alookup m c') ≠ none := by
                    rw [← alookup_aset]
                    exact hn2''
                  by_cases hsc : sock = c'
                  · have hn1' : alookup m sock = none := by
                      unfold cursorRecord at hn1
                      rw [← hpr, hm, ← hsc] at hn1
                      exact hn1
                    rw [hcur] at hn1'
                    exact Option.noConfusion hn1'
                  · rw [if_neg hsc] at hn3
                    unfold cursorRecord at hn1
                    rw [← hpr, hm] at hn1
                    exact hn3 hn1
            · rw [if_neg hpr] at hn2''
              exact hn2'' hn1
    | cursorVisibility roomId vis u' ui' =>
        have hn2' : cursorRecord (cursorVisibilityHandler sock now roomId vis u' ui' s).1
            r' c' ≠ none := hn2
        cases hm : alookup s.roomCursors roomId with
        | none =>
            rw [cursorVisibilityHandler_none _ _ _ _ _ _ _ hm] at hn2'
            exact absurd hn1 hn2'
        | some m =>
            rw [cursorVisibilityHandler_update _ _ _ _ _ _ _ m hm] at hn2'
            cases vis with
            | true =>
                have hn2'' : (if roomId = r' then alookup (aset m sock { position := none, selection := none, isVisible := some true, userId := some u', userInfo := some ui', timestamp := now }) c' else cursorRecord s r' c') ≠ none := by
                  rw [← cursorRecord_set_map]
                  exact hn2'
                by_cases hpr : roomId = r'
                · rw [if_pos hpr, alookup_aset] at hn2''
                  by_cases hsc : sock = c'
                  · exact Or.inr ⟨u', ui', by rw [hpr], hsc.symm⟩
                  · exfalso
                    rw [if_neg hsc] at hn2''
                    unfold cursorRecord at hn1
                    rw [← hpr, hm] at hn1
                    exact hn2'' hn1
                · rw [if_neg hpr] at hn2''
                  exact absurd hn1 hn2''
            | false =>
                exfalso
                have hn2'' : (if roomId = r' then alookup (aerase m sock) c' else cursorRecord s r' c') ≠ none := by
                  rw [← cursorRecord_set_map]
                  exact hn2'
                by_cases hpr : roomId = r'
                · rw [if_pos hpr, alookup_aerase] at hn2''
                  by_cases hsc : sock = c'
                  · rw [if_pos hsc] at hn2''
                    exact hn2'' rfl
                  · rw [if_neg hsc] at hn2''
                    unfold cursorRecord at hn1
                    rw [← hpr, hm] at hn1
                    exact hn2'' hn1
                · rw [if_neg hpr] at hn2''
                  exact hn2'' hn1
    | codeChanged roomId code => exact absurd hn1 hn2
    | inputChanged roomId input => exact absurd hn1 hn2
    | changeLanguage roomId language => exact absurd hn1 hn2
    | runCode roomId output language input code => exact absurd hn1 hn2
    | executionStatus roomId isRunning => exact absurd hn1 hn2
    | callOffer roomId offer fromUserId => exact absurd hn1 hn2
    | callAnswer roomId answer fromUserId => exact absurd hn1 hn2
    | iceCandidate roomId candidate fromUserId => exact absurd hn1 hn2
    | callRequest roomId fromUserId => exact absurd hn1 hn2
    | callAccept roomId fromUserId => exact absurd hn1 hn2
    | callReject roomId fromUserId => exact absurd hn1 hn2
    | callEnd roomId fromUserId => exact absurd hn1 hn2
    | userReadyForCall roomId fromUserId => exact absurd hn1 hn2

/-- Witness for C7: a selection update on an existing record only
rewrites `selection` and `timestamp`. -/
theorem cursor_selection_upsert_semantics_witness :
    cursorRecord (handle ("X") 9 (InEvent.cursorSelection ("r1") ⟨⟨1, 1⟩, ⟨2, 2⟩⟩ ("u1") ⟨("n"), ("c")⟩) (run [(("X"), 0, InEvent.joinRoom ("r1") ("u1") true), (("X"), 1, InEvent.cursorMove ("r1") ⟨1, 2⟩ ("u1") ⟨("n"), ("c")⟩)])).1 ("r1") ("X") =
      some { position := some ⟨1, 2⟩, selection := some ⟨⟨1, 1⟩, ⟨2, 2⟩⟩, isVisible := none, userId := some ("u1"), userInfo := some ⟨("n"), ("c")⟩, timestamp := 9 } :=
  ((cursor_selection_upsert_semantics (run [(("X"), 0, InEvent.joinRoom ("r1") ("u1") true), (("X"), 1, InEvent.cursorMove ("r1") ⟨1, 2⟩ ("u1") ⟨("n"), ("c")⟩)]) ("X") 9 ("r1") ⟨⟨1, 1⟩, ⟨2, 2⟩⟩ ("u1") ⟨("n"), ("c")⟩).2.1 { position := some ⟨1, 2⟩, selection := none, isVisible := none, userId := some ("u1"), userInfo := some ⟨("n"), ("c")⟩, timestamp := 1 } (by decide)).1

/-- Counterexample to C8 as stated: after a `cursor-move` with no prior
record, the created record also has its `userId` field set (the handler
stores `position`, `userId`, `userInfo` and `timestamp`), so the record
does not carry *only* position, userInfo and timestamp. -/
theorem cursor_move_userid_counterexample :
    cursorRecord (run [(("X"), 0, InEvent.joinRoom ("r1") ("u1") true), (("X"), 5, InEvent.cursorMove ("r1") ⟨3, 5⟩ ("u2") ⟨("n"), ("c")⟩)]) ("r1") ("X") =
      some { position := some ⟨3, 5⟩, selection := none, isVisible := none, userId := some ("u2"), userInfo := some ⟨("n"), ("c")⟩, timestamp := 5 } ∧
    Option.bind (cursorRecord (run [(("X"), 0, InEvent.joinRoom ("r1") ("u1") true), (("X"), 5, InEvent.cursorMove ("r1") ⟨3, 5⟩ ("u2") ⟨("n"), ("c")⟩)]) ("r1") ("X")) CursorRecord.userId ≠ none := by
  refine ⟨by decide, by decide⟩

/-- Claim C8 (amended): after `cursor-visibility` with `isVisible = false`
no record exists for the pair; after a `cursor-move` for a pair with no
prior record (in a room with a cursor map) a record exists with exactly
the `position`, `userId`, `userInfo` and `timestamp` fields set and the
`selection` and `isVisible` fields unset. -/
theorem cursor_visibility_move_amended (s : ServerState) (sock : SocketId) (now : Nat)
    (r : RoomId) (u : String) (ui : UserInfo) (p : Pos) :
    cursorRecord (handle sock now (InEvent.cursorVisibility r false u ui) s).1 r sock = none ∧
    ((alookup s.roomCursors r).isSome → cursorRecord s r sock = none →
       cursorRecord (handle sock now (InEvent.cursorMove r p u ui) s).1 r sock =
         some { position := some p, selection := none, isVisible := none, userId := some u, userInfo := some ui, timestamp := now }) := by
  constructor
  · show cursorRecord (cursorVisibilityHandler sock now r false u ui s).1 r sock = none
    cases hm : alookup s.roomCursors r with
    | none =>
        rw [cursorVisibilityHandler_none _ _ _ _ _ _ _ hm]
        unfold cursorRecord
        rw [hm]
    | some m =>
        rw [cursorVisibilityHandler_update _ _ _ _ _ _ _ m hm]
        have hred : (if (false : Bool) then aset m sock { position := none, selection := none, isVisible := some true, userId := some u, userInfo := some ui, timestamp := now } else aerase m sock) = aerase m sock := by
          rw [if_neg]
          simp
        simp only [hred]
        rw [cursorRecord_set_map, if_pos rfl, alookup_aerase, if_pos rfl]
  · intro hsome hnone
    obtain ⟨m, hm⟩ := Option.isSome_iff_exists.mp hsome
    show cursorRecord (cursorMoveHandler sock now r p u ui s).1 r sock = _
    rw [cursorMoveHandler_update _ _ _ _ _ _ _ m hm]
    have hx := cursorRecord_set_map s r (aset m sock { position := some p, selection := none, isVisible := none, userId := some u, userInfo := some ui, timestamp := now }) r sock
    rw [if_pos rfl] at hx
    rw [hx, alookup_aset, if_pos rfl]

/-- Witness for the amended C8 on a concrete fresh record. -/
theorem cursor_visibility_move_amended_witness :
    cursorRecord (handle ("X") 5 (InEvent.cursorMove ("r1") ⟨3, 5⟩ ("u2") ⟨("n"), ("c")⟩) (run [(("X"), 0, InEvent.joinRoom ("r1") ("u1") true)])).1 ("r1") ("X") =
      some { position := some ⟨3, 5⟩, selection := none, isVisible := none, userId := some ("u2"), userInfo := some ⟨("n"), ("c")⟩, timestamp := 5 } :=
  (cursor_visibility_move_amended (run [(("X"), 0, InEvent.joinRoom ("r1") ("u1") true)]) ("X") 5 ("r1") ("u2") ⟨("n"), ("c")⟩ ⟨3, 5⟩).2 (by decide) (by decide)

/-- Claim C9: a `cursor-selection` naming an existing room is still
broadcast to all other members even when the sender has no stored record,
and all three cursor events are complete no-ops (no store mutation, no
emission) when the named room has no cursor map. -/
theorem cursor_room_gating (evs : List (SocketId × Nat × InEvent)) (s : ServerState)
    (hs : s = run evs) (sock : SocketId) (now : Nat) (r : RoomId) (sel : Selection) (p : Pos)
    (vis : Bool) (u : String) (ui : UserInfo) :
    ((alookup s.activeRooms r).isSome → cursorRecord s r sock = none →
       (handle sock now (InEvent.cursorSelection r sel u ui) s).2 =
         [Emit.toRoom r sock (OutEvent.cursorSelection sock sel u ui)] ∧
       deliveries (handle sock now (InEvent.cursorSelection r sel u ui) s).1
           (handle sock now (InEvent.cursorSelection r sel u ui) s).2 =
         (sdel (members s r) sock).map (fun c => (c, OutEvent.cursorSelection sock sel u ui))) ∧
    (alookup s.roomCursors r = none →
       handle sock now (InEvent.cursorMove r p u ui) s = (s, []) ∧
       handle sock now (InEvent.cursorSelection r sel u ui) s = (s, []) ∧
       handle sock now (InEvent.cursorVisibility r vis u ui) s = (s, [])) := by
  constructor
  · intro hex hnone
    have hcur : (alookup s.roomCursors r).isSome := by
      obtain ⟨_, h2, _, _⟩ := hs ▸ inv_run evs
      exact (h2 r).mp hex
    obtain ⟨m, hm⟩ := Option.isSome_iff_exists.mp hcur
    have hn' : alookup m sock = none := by
      unfold cursorRecord at hnone
      rw [hm] at hnone
      exact hnone
    have hred : handle sock now (InEvent.cursorSelection r sel u ui) s =
        ({ s with roomCursors := aset s.roomCursors r m },
         [Emit.toRoom r sock (OutEvent.cursorSelection sock sel u ui)]) := by
      show cursorSelectionHandler sock now r sel u ui s = _
      rw [cursorSelectionHandler_update _ _ _ _ _ _ _ m hm]
      rw [hn']
    rw [hred]
    refine ⟨rfl, ?_⟩
    show (recipients { s with roomCursors := aset s.roomCursors r m }
        (Emit.toRoom r sock (OutEvent.cursorSelection sock sel u ui))).map
          (fun c => (c, OutEvent.cursorSelection sock sel u ui)) ++ [] = _
    rw [List.append_nil]
    rfl
  · intro hno
    refine ⟨?_, ?_, ?_⟩
    · exact cursorMoveHandler_none _ _ _ _ _ _ _ hno
    · exact cursorSelectionHandler_none _ _ _ _ _ _ _ hno
    · exact cursorVisibilityHandler_none _ _ _ _ _ _ _ hno

/-- Witness for C9: a record-less sender's selection still reaches the
other member, and cursor events to an untracked room are no-ops. -/
theorem cursor_room_gating_witness :
    ((handle ("X") 7 (InEvent.cursorSelection ("r1") ⟨⟨1, 1⟩, ⟨2, 2⟩⟩ ("u2") ⟨("n"), ("c")⟩) (run [(("Y"), 0, InEvent.joinRoom ("r1") ("uY") true), (("X"), 1, InEvent.joinRoom ("r1") ("uX") false)])).2 =
       [Emit.toRoom ("r1") ("X") (OutEvent.cursorSelection ("X") ⟨⟨1, 1⟩, ⟨2, 2⟩⟩ ("u2") ⟨("n"), ("c")⟩)] ∧
     deliveries (handle ("X") 7 (InEvent.cursorSelection ("r1") ⟨⟨1, 1⟩, ⟨2, 2⟩⟩ ("u2") ⟨("n"), ("c")⟩) (run [(("Y"), 0, InEvent.joinRoom ("r1") ("uY") true), (("X"), 1, InEvent.joinRoom ("r1") ("uX") false)])).1
         (handle ("X") 7 (InEvent.cursorSelection ("r1") ⟨⟨1, 1⟩, ⟨2, 2⟩⟩ ("u2") ⟨("n"), ("c")⟩) (run [(("Y"), 0, InEvent.joinRoom ("r1") ("uY") true), (("X"), 1, InEvent.joinRoom ("r1") ("uX") false)])).2 =
       (sdel (members (run [(("Y"), 0, InEvent.joinRoom ("r1") ("uY") true), (("X"), 1, InEvent.joinRoom ("r1") ("uX") false)]) ("r1")) ("X")).map (fun c => (c, OutEvent.cursorSelection ("X") ⟨⟨1, 1⟩, ⟨2, 2⟩⟩ ("u2") ⟨("n"), ("c")⟩))) :=
  (cursor_room_gating [(("Y"), 0, InEvent.joinRoom ("r1") ("uY") true), (("X"), 1, InEvent.joinRoom ("r1") ("uX") false)] _ rfl ("X") 7 ("r1") ⟨⟨1, 1⟩, ⟨2, 2⟩⟩ ⟨0, 0⟩ false ("u2") ⟨("n"), ("c")⟩).1 (by decide) (by decide)

/-- Counterexample to C3 as stated: connection X is in state
`Joined("R")` (its registry entry names `"R"`), yet after its disconnect
the cursor state store still holds a record for X — the stale record
left in room `"P"` by X's earlier room switch.  Disconnect therefore
does not remove the connection from the cursor state store as a whole. -/
theorem disconnect_stale_cursor_counterexample :
    alookup (run [(("Y"), 0, InEvent.joinRoom ("P") ("uY") true), (("X"), 1, InEvent.joinRoom ("P") ("uX") false), (("X"), 2, InEvent.cursorMove ("P") ⟨1, 1⟩ ("uX") ⟨("n"), ("c")⟩), (("X"), 3, InEvent.joinRoom ("R") ("uX") true)]).socketToRoom ("X") = some ("R") ∧
    cursorRecord (run [(("Y"), 0, InEvent.joinRoom ("P") ("uY") true), (("X"), 1, InEvent.joinRoom ("P") ("uX") false), (("X"), 2, InEvent.cursorMove ("P") ⟨1, 1⟩ ("uX") ⟨("n"), ("c")⟩), (("X"), 3, InEvent.joinRoom ("R") ("uX") true), (("X"), 4, InEvent.disconnect)]) ("P") ("X") ≠ none := by
  refine ⟨by decide, by decide⟩

/-- Claim C3 (amended): disconnecting a connection in state
`Joined(room)` where `room` is a truthy (non-empty) identifier removes
the connection from every truthy room's member set, deletes its cursor
record under `room`, clears its registry entry, and emits exactly one
`user-left{socketId}` delivered to exactly the remaining members of
`room` (so zero deliveries when none remain); when the member set
becomes empty, the room entry and the room's whole cursor map are
deleted in the same step.  Exemptions forced by the code: cursor records
left in previously departed rooms survive, stale memberships of the
empty-identifier room `""` survive, and a disconnect whose registry
entry is `""` performs no cleanup at all and emits nothing. -/
theorem disconnect_cleanup_amended (evs : List (SocketId × Nat × InEvent)) (s : ServerState)
    (sock : SocketId) (now : Nat) (room : RoomId) (hs : s = run evs)
    (hj : alookup s.socketToRoom sock = some room) :
    (room ≠ ("") →
       (∀ r, r ≠ ("") → sock ∉ members (handle sock now InEvent.disconnect s).1 r) ∧
       cursorRecord (handle sock now InEvent.disconnect s).1 room sock = none ∧
       alookup (handle sock now InEvent.disconnect s).1.socketToRoom sock = none ∧
       (handle sock now InEvent.disconnect s).2 =
         [Emit.toRoom room sock (OutEvent.userLeft sock)] ∧
       deliveries (handle sock now InEvent.disconnect s).1
           (handle sock now InEvent.disconnect s).2 =
         (members (handle sock now InEvent.disconnect s).1 room).map
           (fun c => (c, OutEvent.userLeft sock)) ∧
       (sdel (members s room) sock = [] →
          alookup (handle sock now InEvent.disconnect s).1.activeRooms room = none ∧
          alookup (handle sock now InEvent.disconnect s).1.roomCursors room = none)) ∧
    (room = ("") → handle sock now InEvent.disconnect s = (s, [])) := by
  have hinv : Inv s := by rw [hs]; exact inv_run evs
  obtain ⟨h1, h2, h3, h4⟩ := hinv
  refine ⟨?_, ?_⟩
  swap
  · intro hre
    rw [hre] at hj
    exact disconnectHandler_empty sock s hj
  intro hre
  obtain ⟨parts, hract, hmem⟩ := h4 sock room hj
  have hh : handle sock now InEvent.disconnect s = disconnectCleanup sock room s :=
    disconnectHandler_joined _ _ _ hj hre
  rw [hh]
  have hmemsr : members s room = parts := by
    unfold members
    rw [hract]
    rfl
  by_cases he : sdel parts sock = []
  · have hrm := removeFromRoom_last room sock s parts hract he
    have hcm : alookup (removeFromRoom room sock s).roomCursors room = none := by
      rw [hrm]
      show alookup (aerase s.roomCursors room) room = none
      rw [alookup_aerase, if_pos rfl]
    rw [disconnectCleanup_nocursor sock room s hcm]
    have hstate : ({ removeFromRoom room sock s with socketToRoom := aerase (removeFromRoom room sock s).socketToRoom sock }) = { s with activeRooms := aerase s.activeRooms room, socketToRoom := aerase s.socketToRoom sock, roomCursors := aerase s.roomCursors room } := by
      rw [hrm]
    rw [hstate]
    have hmems0 : members { s with activeRooms := aerase s.activeRooms room, socketToRoom := aerase s.socketToRoom sock, roomCursors := aerase s.roomCursors room } room = [] := by
      unfold members
      show (alookup (aerase s.activeRooms room) room).getD [] = []
      rw [alookup_aerase, if_pos rfl]
      rfl
    refine ⟨?_, ?_, ?_, rfl, ?_, ?_⟩
    · intro r hr'
      show sock ∉ (alookup (aerase s.activeRooms room) r).getD []
      rw [alookup_aerase]
      by_cases hpr : room = r
      · rw [if_pos hpr]
        exact List.not_mem_nil sock
      · rw [if_neg hpr]
        cases hl : alookup s.activeRooms r with
        | none => exact List.not_mem_nil sock
        | some parts1 =>
            intro hmm
            have hx := h3 sock r parts1 hr' hl hmm
            rw [hj] at hx
            injection hx with hre2
            exact hpr hre2
    · show cursorRecord { s with activeRooms := aerase s.activeRooms room, socketToRoom := aerase s.socketToRoom sock, roomCursors := aerase s.roomCursors room } room sock = none
      unfold cursorRecord
      show (match alookup (aerase s.roomCursors room) room with | some m => alookup m sock | none => none) = none
      rw [alookup_aerase, if_pos rfl]
    · show alookup (aerase s.socketToRoom sock) sock = none
      rw [alookup_aerase, if_pos rfl]
    · show (sdel (members { s with activeRooms := aerase s.activeRooms room, socketToRoom := aerase s.socketToRoom sock, roomCursors := aerase s.roomCursors room } room) sock).map (fun c => (c, OutEvent.userLeft sock)) ++ ([] : List (SocketId × OutEvent)) = _
      rw [hmems0, List.append_nil]
      rfl
    · intro _
      constructor
      · show alookup (aerase s.activeRooms room) room = none
        rw [alookup_aerase, if_pos rfl]
      · show alookup (aerase s.roomCursors room) room = none
        rw [alookup_aerase, if_pos rfl]
  · have hrm := removeFromRoom_rest room sock s parts hract he
    have hsomec : (alookup s.roomCursors room).isSome := by
      apply (h2 room).mp
      rw [hract]
      rfl
    obtain ⟨m, hm⟩ := Option.isSome_iff_exists.mp hsomec
    have hcm : alookup (removeFromRoom room sock s).roomCursors room = some m := by
      rw [hrm]
      exact hm
    rw [disconnectCleanup_cursor sock room s m hcm]
    have hstate : ({ removeFromRoom room sock s with roomCursors := aset (removeFromRoom room sock s).roomCursors room (aerase m sock), socketToRoom := aerase (removeFromRoom room sock s).socketToRoom sock }) = { s with activeRooms := aset s.activeRooms room (sdel parts sock), socketToRoom := aerase s.socketToRoom sock, roomCursors := aset s.roomCursors room (aerase m sock) } := by
      rw [hrm]
    rw [hstate]
    have hmems0 : members { s with activeRooms := aset s.activeRooms room (sdel parts sock), socketToRoom := aerase s.socketToRoom sock, roomCursors := aset s.roomCursors room (aerase m sock) } room = sdel parts sock := by
      unfold members
      show (alookup (aset s.activeRooms room (sdel parts sock)) room).getD [] = sdel parts sock
      rw [alookup_aset, if_pos rfl]
      rfl
    refine ⟨?_, ?_, ?_, rfl, ?_, ?_⟩
    · intro r hr'
      show sock ∉ (alookup (aset s.activeRooms room (sdel parts sock)) r).getD []
      rw [alookup_aset]
      by_cases hpr : room = r
      · rw [if_pos hpr]
        exact sdel_not_mem parts sock
      · rw [if_neg hpr]
        cases hl : alookup s.activeRooms r with
        | none => exact List.not_mem_nil sock
        | some parts1 =>
            intro hmm
            have hx := h3 sock r parts1 hr' hl hmm
            rw [hj] at hx
            injection hx with hre2
            exact hpr hre2
    · show cursorRecord { s with activeRooms := aset s.activeRooms room (sdel parts sock), socketToRoom := aerase s.socketToRoom sock, roomCursors := aset s.roomCursors room (aerase m sock) } room sock = none
      unfold cursorRecord
      show (match alookup (aset s.roomCursors room (aerase m sock)) room with | some mm => alookup mm sock | none => none) = none
      rw [alookup_aset, if_pos rfl]
      show alookup (aerase m sock) sock = none
      rw [alookup_aerase, if_pos rfl]
    · show alookup (aerase s.socketToRoom sock) sock = none
      rw [alookup_aerase, if_pos rfl]
    · show (sdel (members { s with activeRooms := aset s.activeRooms room (sdel parts sock), socketToRoom := aerase s.socketToRoom sock, roomCursors := aset s.roomCursors room (aerase m sock) } room) sock).map (fun c => (c, OutEvent.userLeft sock)) ++ ([] : List (SocketId × OutEvent)) = _
      rw [hmems0, List.append_nil, sdel_sdel]
    · intro h6
      rw [hmemsr] at h6
      exact absurd h6 he

/-- Witness for the amended C3: the sole member of a truthy room
disconnects. -/
theorem disconnect_cleanup_amended_witness :
    ((∀ r, r ≠ ("") → ("X") ∉ members (handle ("X") 9 InEvent.disconnect (run [(("X"), 0, InEvent.joinRoom ("r1") ("u1") true)])).1 r) ∧
     cursorRecord (handle ("X") 9 InEvent.disconnect (run [(("X"), 0, InEvent.joinRoom ("r1") ("u1") true)])).1 ("r1") ("X") = none ∧
     alookup (handle ("X") 9 InEvent.disconnect (run [(("X"), 0, InEvent.joinRoom ("r1") ("u1") true)])).1.socketToRoom ("X") = none ∧
     (handle ("X") 9 InEvent.disconnect (run [(("X"), 0, InEvent.joinRoom ("r1") ("u1") true)])).2 = [Emit.toRoom ("r1") ("X") (OutEvent.userLeft ("X"))] ∧
     deliveries (handle ("X") 9 InEvent.disconnect (run [(("X"), 0, InEvent.joinRoom ("r1") ("u1") true)])).1 (handle ("X") 9 InEvent.disconnect (run [(("X"), 0, InEvent.joinRoom ("r1") ("u1") true)])).2 =
       (members (handle ("X") 9 InEvent.disconnect (run [(("X"), 0, InEvent.joinRoom ("r1") ("u1") true)])).1 ("r1")).map (fun c => (c, OutEvent.userLeft ("X"))) ∧
     (sdel (members (run [(("X"), 0, InEvent.joinRoom ("r1") ("u1") true)]) ("r1")) ("X") = [] →
        alookup (handle ("X") 9 InEvent.disconnect (run [(("X"), 0, InEvent.joinRoom ("r1") ("u1") true)])).1.activeRooms ("r1") = none ∧
        alookup (handle ("X") 9 InEvent.disconnect (run [(("X"), 0, InEvent.joinRoom ("r1") ("u1") true)])).1.roomCursors ("r1") = none)) :=
  (disconnect_cleanup_amended [(("X"), 0, InEvent.joinRoom ("r1") ("u1") true)] _ ("X") 9
    ("r1") rfl (by decide)).1 (by decide)

/-- Counterexample to C4 as stated: socket `s1` switches from room `"A"`
(which keeps another member) to room `"B"`; the switch succeeds and
removes `s1` from `"A"`'s member set, but `s1`'s cursor record under
`"A"` is not deleted — the previous-room cleanup of the join handler
never drops the individual cursor record. -/
theorem room_switch_stale_cursor_counterexample :
    alookup (run [(("s2"), 0, InEvent.joinRoom ("A") ("u2") true), (("s1"), 1, InEvent.joinRoom ("A") ("u1") false), (("s1"), 2, InEvent.cursorMove ("A") ⟨2, 3⟩ ("u1") ⟨("nm"), ("cl")⟩)]).socketToRoom ("s1") = some ("A") ∧
    alookup (run [(("s2"), 0, InEvent.joinRoom ("A") ("u2") true), (("s1"), 1, InEvent.joinRoom ("A") ("u1") false), (("s1"), 2, InEvent.cursorMove ("A") ⟨2, 3⟩ ("u1") ⟨("nm"), ("cl")⟩), (("s1"), 3, InEvent.joinRoom ("B") ("u1") true)]).socketToRoom ("s1") = some ("B") ∧
    members (run [(("s2"), 0, InEvent.joinRoom ("A") ("u2") true), (("s1"), 1, InEvent.joinRoom ("A") ("u1") false), (("s1"), 2, InEvent.cursorMove ("A") ⟨2, 3⟩ ("u1") ⟨("nm"), ("cl")⟩), (("s1"), 3, InEvent.joinRoom ("B") ("u1") true)]) ("A") = [("s2")] ∧
    cursorRecord (run [(("s2"), 0, InEvent.joinRoom ("A") ("u2") true), (("s1"), 1, InEvent.joinRoom ("A") ("u1") false), (("s1"), 2, InEvent.cursorMove ("A") ⟨2, 3⟩ ("u1") ⟨("nm"), ("cl")⟩), (("s1"), 3, InEvent.joinRoom ("B") ("u1") true)]) ("A") ("s1") ≠ none := by
  refine ⟨by decide, by decide, by decide, by decide⟩

/-- Claim C4 (amended): a successful join of a different room `R` from a
prior room `P` with a truthy (non-empty) identifier removes the
connection from `P`'s member set, and when `P`'s member set thereby
becomes empty, `P`'s room entry and whole cursor map (including the
connection's record) are deleted; when other members remain in `P`, the
connection's cursor record under `P` is left in place unchanged (it is
not dropped by the switch).  When `P` is the empty identifier `""`, the
`if (previousRoom)` truthiness guard skips the whole previous-room
block: `P`'s member set and the connection's cursor record under `P`
are unchanged. -/
theorem room_switch_cleanup_amended (evs : List (SocketId × Nat × InEvent)) (s : ServerState)
    (sock uid : String) (now : Nat) (P R : RoomId) (crt : Bool)
    (hs : s = run evs) (hP : alookup s.socketToRoom sock = some P) (hne : P ≠ R)
    (hguard : (alookup s.activeRooms R).isSome ∨ crt = true) :
    (P ≠ ("") →
       sock ∉ members (handle sock now (InEvent.joinRoom R uid crt) s).1 P ∧
       (sdel (members s P) sock = [] →
          alookup (handle sock now (InEvent.joinRoom R uid crt) s).1.activeRooms P = none ∧
          alookup (handle sock now (InEvent.joinRoom R uid crt) s).1.roomCursors P = none) ∧
       (sdel (members s P) sock ≠ [] →
          cursorRecord (handle sock now (InEvent.joinRoom R uid crt) s).1 P sock =
            cursorRecord s P sock)) ∧
    (P = ("") →
       members (handle sock now (InEvent.joinRoom R uid crt) s).1 P = members s P ∧
       cursorRecord (handle sock now (InEvent.joinRoom R uid crt) s).1 P sock =
         cursorRecord s P sock) := by
  have hinv : Inv s := by rw [hs]; exact inv_run evs
  obtain ⟨h1, h2, h3, h4⟩ := hinv
  have hRP : ¬(R = P) := fun e => hne e.symm
  have hh : handle sock now (InEvent.joinRoom R uid crt) s =
      (attachToRoom sock R
        (match alookup s.socketToRoom sock with
         | some prev => if prev = ("") then s else removeFromRoom prev sock s
         | none => s),
       [Emit.toSender sock (OutEvent.roomJoined R),
        Emit.toRoom R sock (OutEvent.userJoined uid sock)]) :=
    joinRoomHandler_accepted sock R uid crt s hguard
  refine ⟨?_, ?_⟩
  swap
  · intro hPe
    have hp2 : (match alookup s.socketToRoom sock with
        | some prev => if prev = ("") then s else removeFromRoom prev sock s
        | none => s) = s := by
      rw [hP]
      show (if P = ("") then s else removeFromRoom P sock s) = s
      rw [if_pos hPe]
    rw [hp2] at hh
    rw [hh]
    constructor
    · show (alookup (attachToRoom sock R s).activeRooms P).getD [] =
        (alookup s.activeRooms P).getD []
      rw [attach_activeRooms, if_neg hRP]
    · unfold cursorRecord
      rw [attach_roomCursors, if_neg hRP]
  intro hPe
  obtain ⟨parts, hract, hmem⟩ := h4 sock P hP
  have hmemsr : members s P = parts := by
    unfold members
    rw [hract]
    rfl
  have hp2 : (match alookup s.socketToRoom sock with
      | some prev => if prev = ("") then s else removeFromRoom prev sock s
      | none => s) = removeFromRoom P sock s := by
    rw [hP]
    show (if P = ("") then s else removeFromRoom P sock s) = removeFromRoom P sock s
    rw [if_neg hPe]
  rw [hp2] at hh
  rw [hh]
  by_cases he : sdel parts sock = []
  · have hrm := removeFromRoom_last P sock s parts hract he
    rw [hrm]
    refine ⟨?_, ?_, ?_⟩
    · show sock ∉ (alookup (attachToRoom sock R { s with activeRooms := aerase s.activeRooms P, roomCursors := aerase s.roomCursors P }).activeRooms P).getD []
      rw [attach_activeRooms, if_neg hRP]
      show sock ∉ (alookup (aerase s.activeRooms P) P).getD []
      rw [alookup_aerase, if_pos rfl]
      exact List.not_mem_nil sock
    · intro _
      constructor
      · rw [attach_activeRooms, if_neg hRP]
        show alookup (aerase s.activeRooms P) P = none
        rw [alookup_aerase, if_pos rfl]
      · rw [attach_roomCursors, if_neg hRP]
        show alookup (aerase s.roomCursors P) P = none
        rw [alookup_aerase, if_pos rfl]
    · intro h7
      rw [hmemsr] at h7
      exact absurd he h7
  · have hrm := removeFromRoom_rest P sock s parts hract he
    rw [hrm]
    refine ⟨?_, ?_, ?_⟩
    · show sock ∉ (alookup (attachToRoom sock R { s with activeRooms := aset s.activeRooms P (sdel parts sock) }).activeRooms P).getD []
      rw [attach_activeRooms, if_neg hRP]
      show sock ∉ (alookup (aset s.activeRooms P (sdel parts sock)) P).getD []
      rw [alookup_aset, if_pos rfl]
      exact sdel_not_mem parts sock
    · intro h6
      rw [hmemsr] at h6
      exact absurd h6 he
    · intro _
      unfold cursorRecord
      rw [attach_roomCursors, if_neg hRP]

/-- Witness for the amended C4: `s1` switches rooms while `s2` stays. -/
theorem room_switch_cleanup_amended_witness :
    (("s1") ∉ members (handle ("s1") 3 (InEvent.joinRoom ("B") ("u1") true) (run [(("s2"), 0, InEvent.joinRoom ("A") ("u2") true), (("s1"), 1, InEvent.joinRoom ("A") ("u1") false), (("s1"), 2, InEvent.cursorMove ("A") ⟨2, 3⟩ ("u1") ⟨("nm"), ("cl")⟩)])).1 ("A") ∧
     (sdel (members (run [(("s2"), 0, InEvent.joinRoom ("A") ("u2") true), (("s1"), 1, InEvent.joinRoom ("A") ("u1") false), (("s1"), 2, InEvent.cursorMove ("A") ⟨2, 3⟩ ("u1") ⟨("nm"), ("cl")⟩)]) ("A")) ("s1") = [] →
        alookup (handle ("s1") 3 (InEvent.joinRoom ("B") ("u1") true) (run [(("s2"), 0, InEvent.joinRoom ("A") ("u2") true), (("s1"), 1, InEvent.joinRoom ("A") ("u1") false), (("s1"), 2, InEvent.cursorMove ("A") ⟨2, 3⟩ ("u1") ⟨("nm"), ("cl")⟩)])).1.activeRooms ("A") = none ∧
        alookup (handle ("s1") 3 (InEvent.joinRoom ("B") ("u1") true) (run [(("s2"), 0, InEvent.joinRoom ("A") ("u2") true), (("s1"), 1, InEvent.joinRoom ("A") ("u1") false), (("s1"), 2, InEvent.cursorMove ("A") ⟨2, 3⟩ ("u1") ⟨("nm"), ("cl")⟩)])).1.roomCursors ("A") = none) ∧
     (sdel (members (run [(("s2"), 0, InEvent.joinRoom ("A") ("u2") true), (("s1"), 1, InEvent.joinRoom ("A") ("u1") false), (("s1"), 2, InEvent.cursorMove ("A") ⟨2, 3⟩ ("u1") ⟨("nm"), ("cl")⟩)]) ("A")) ("s1") ≠ [] →
        cursorRecord (handle ("s1") 3 (InEvent.joinRoom ("B") ("u1") true) (run [(("s2"), 0, InEvent.joinRoom ("A") ("u2") true), (("s1"), 1, InEvent.joinRoom ("A") ("u1") false), (("s1"), 2, InEvent.cursorMove ("A") ⟨2, 3⟩ ("u1") ⟨("nm"), ("cl")⟩)])).1 ("A") ("s1") =
          cursorRecord (run [(("s2"), 0, InEvent.joinRoom ("A") ("u2") true), (("s1"), 1, InEvent.joinRoom ("A") ("u1") false), (("s1"), 2, InEvent.cursorMove ("A") ⟨2, 3⟩ ("u1") ⟨("nm"), ("cl")⟩)]) ("A") ("s1"))) :=
  (room_switch_cleanup_amended [(("s2"), 0, InEvent.joinRoom ("A") ("u2") true), (("s1"), 1, InEvent.joinRoom ("A") ("u1") false), (("s1"), 2, InEvent.cursorMove ("A") ⟨2, 3⟩ ("u1") ⟨("nm"), ("cl")⟩)] _ ("s1") ("u1") 3 ("A") ("B") true rfl (by decide) (by decide) (Or.inr rfl)).1 (by decide)

theorem members_set_cursorMap (s : ServerState) (x : List (RoomId × List (SocketId × CursorRecord))) (r : RoomId) :
    members { s with roomCursors := x } r = members s r := rfl

/-- Claim C6: every fan-out event is delivered exactly to the current
members of the room named in the inbound payload minus the sender (never
to the sender), and the outbound wire name equals the inbound one except
that `change-language` becomes `language-changed` and `run-code` becomes
`code-run`. -/
theorem fanout_delivery (evs : List (SocketId × Nat × InEvent)) (s : ServerState)
    (hs : s = run evs) (sock : SocketId) (now : Nat) (e : InEvent) (o : OutEvent)
    (h : relayOut sock e = some o) :
    deliveries (handle sock now e s).1 (handle sock now e s).2 =
      (sdel (members s (InEvent.room e)) sock).map (fun c => (c, o)) ∧
    (∀ c, c ∈ (deliveries (handle sock now e s).1 (handle sock now e s).2).map Prod.fst →
       c ≠ sock) ∧
    outName o =
      (if inName e = ("change-language") then ("language-changed")
       else if inName e = ("run-code") then ("code-run")
       else inName e) := by
  have hinv : Inv s := by rw [hs]; exact inv_run evs
  obtain ⟨h1, h2, h3, h4⟩ := hinv
  have hd : deliveries (handle sock now e s).1 (handle sock now e s).2 =
      (sdel (members s (InEvent.room e)) sock).map (fun c => (c, o)) := by
    cases e with
    | joinRoom a b c => exact Option.noConfusion h
    | checkRoom a => exact Option.noConfusion h
    | disconnect => exact Option.noConfusion h
    | codeChanged roomId code =>
        have h' : some (OutEvent.codeChanged code) = some o := h
        injection h' with ho
        subst ho
        show deliveries s [Emit.toRoom roomId sock (OutEvent.codeChanged code)] = _
        simp [deliveries, recipients, Emit.out, InEvent.room]
    | inputChanged roomId input =>
        have h' : some (OutEvent.inputChanged input) = some o := h
        injection h' with ho
        subst ho
        show deliveries s [Emit.toRoom roomId sock (OutEvent.inputChanged input)] = _
        simp [deliveries, recipients, Emit.out, InEvent.room]
    | changeLanguage roomId language =>
        have h' : some (OutEvent.languageChanged language) = some o := h
        injection h' with ho
        subst ho
        show deliveries s [Emit.toRoom roomId sock (OutEvent.languageChanged language)] = _
        simp [deliveries, recipients, Emit.out, InEvent.room]
    | runCode roomId output language input code =>
        have h' : some (OutEvent.codeRun output language input code) = some o := h
        injection h' with ho
        subst ho
        show deliveries s
          [Emit.toRoom roomId sock (OutEvent.codeRun output language input code)] = _
        simp [deliveries, recipients, Emit.out, InEvent.room]
    | executionStatus roomId isRunning =>
        have h' : some (OutEvent.executionStatus isRunning) = some o := h
        injection h' with ho
        subst ho
        show deliveries s [Emit.toRoom roomId sock (OutEvent.executionStatus isRunning)] = _
        simp [deliveries, recipients, Emit.out, InEvent.room]
    | callOffer roomId offer fromUserId =>
        have h' : some (OutEvent.callOffer offer fromUserId sock) = some o := h
        injection h' with ho
        subst ho
        show deliveries s
          [Emit.toRoom roomId sock (OutEvent.callOffer offer fromUserId sock)] = _
        simp [deliveries, recipients, Emit.out, InEvent.room]
    | callAnswer roomId answer fromUserId =>
        have h' : some (OutEvent.callAnswer answer fromUserId sock) = some o := h
        injection h' with ho
        subst ho
        show deliveries s
          [Emit.toRoom roomId sock (OutEvent.callAnswer answer fromUserId sock)] = _
        simp [deliveries, recipients, Emit.out, InEvent.room]
    | iceCandidate roomId candidate fromUserId =>
        have h' : some (OutEvent.iceCandidate candidate fromUserId sock) = some o := h
        injection h' with ho
        subst ho
        show deliveries s
          [Emit.toRoom roomId sock (OutEvent.iceCandidate candidate fromUserId sock)] = _
        simp [deliveries, recipients, Emit.out, InEvent.room]
    | callRequest roomId fromUserId =>
        have h' : some (OutEvent.callRequest fromUserId sock) = some o := h
        injection h' with ho
        subst ho
        show deliveries s [Emit.toRoom roomId sock (OutEvent.callRequest fromUserId sock)] = _
        simp [deliveries, recipients, Emit.out, InEvent.room]
    | callAccept roomId fromUserId =>
        have h' : some (OutEvent.callAccept fromUserId sock) = some o := h
        injection h' with ho
        subst ho
        show deliveries s [Emit.toRoom roomId sock (OutEvent.callAccept fromUserId sock)] = _
        simp [deliveries, recipients, Emit.out, InEvent.room]
    | callReject roomId fromUserId =>
        have h' : some (OutEvent.callReject fromUserId sock) = some o := h
        injection h' with ho
        subst ho
        show deliveries s [Emit.toRoom roomId sock (OutEvent.callReject fromUserId sock)] = _
        simp [deliveries, recipients, Emit.out, InEvent.room]
    | callEnd roomId fromUserId =>
        have h' : some (OutEvent.callEnd fromUserId sock) = some o := h
        injection h' with ho
        subst ho
        show deliveries s [Emit.toRoom roomId sock (OutEvent.callEnd fromUserId sock)] = _
        simp [deliveries, recipients, Emit.out, InEvent.room]
    | userReadyForCall roomId fromUserId =>
        have h' : some (OutEvent.userReadyForCall fromUserId sock) = some o := h
        injection h' with ho
        subst ho
        show deliveries s
          [Emit.toRoom roomId sock (OutEvent.userReadyForCall fromUserId sock)] = _
        simp [deliveries, recipients, Emit.out, InEvent.room]
    | cursorMove roomId p u' ui' =>
        have h' : some (OutEvent.cursorMove sock p u' ui') = some o := h
        injection h' with ho
        subst ho
        cases hm : alookup s.roomCursors roomId with
        | none =>
            have hr : handle sock now (InEvent.cursorMove roomId p u' ui') s = (s, []) :=
              cursorMoveHandler_none sock now roomId p u' ui' s hm
            rw [hr]
            have hact : alookup s.activeRooms roomId = none := by
              cases hca : alookup s.activeRooms roomId with
              | none => rfl
              | some q =>
                  exfalso
                  have hq := (h2 roomId).mp (by rw [hca]; rfl)
                  rw [hm] at hq
                  exact Bool.noConfusion hq
            simp [deliveries, members, hact, sdel, InEvent.room]
        | some m =>
            rw [show handle sock now (InEvent.cursorMove roomId p u' ui') s =
              cursorMoveHandler sock now roomId p u' ui' s from rfl]
            rw [cursorMoveHandler_update sock now roomId p u' ui' s m hm]
            simp [deliveries, recipients, Emit.out, InEvent.room, members]
    | cursorSelection roomId sel' u' ui' =>
        have h' : some (OutEvent.cursorSelection sock sel' u' ui') = some o := h
        injection h' with ho
        subst ho
        cases hm : alookup s.roomCursors roomId with
        | none =>
            have hr : handle sock now (InEvent.cursorSelection roomId sel' u' ui') s =
                (s, []) := cursorSelectionHandler_none sock now roomId sel' u' ui' s hm
            rw [hr]
            have hact : alookup s.activeRooms roomId = none := by
              cases hca : alookup s.activeRooms roomId with
              | none => rfl
              | some q =>
                  exfalso
                  have hq := (h2 roomId).mp (by rw [hca]; rfl)
                  rw [hm] at hq
                  exact Bool.noConfusion hq
            simp [deliveries, members, hact, sdel, InEvent.room]
        | some m =>
            rw [show handle sock now (InEvent.cursorSelection roomId sel' u' ui') s =
              cursorSelectionHandler sock now roomId sel' u' ui' s from rfl]
            rw [cursorSelectionHandler_update sock now roomId sel' u' ui' s m hm]
            simp [deliveries, recipients, Emit.out, InEvent.room, members]
    | cursorVisibility roomId vis u' ui' =>
        have h' : some (OutEvent.cursorVisibility sock vis u' ui') = some o := h
        injection h' with ho
        subst ho
        cases hm : alookup s.roomCursors roomId with
        | none =>
            have hr : handle sock now (InEvent.cursorVisibility roomId vis u' ui') s =
                (s, []) := cursorVisibilityHandler_none sock now roomId vis u' ui' s hm
            rw [hr]
            have hact : alookup s.activeRooms roomId = none := by
              cases hca : alookup s.activeRooms roomId with
              | none => rfl
              | some q =>
                  exfalso
                  have hq := (h2 roomId).mp (by rw [hca]; rfl)
                  rw [hm] at hq
                  exact Bool.noConfusion hq
            simp [deliveries, members, hact, sdel, InEvent.room]
        | some m =>
            rw [show handle sock now (InEvent.cursorVisibility roomId vis u' ui') s =
              cursorVisibilityHandler sock now roomId vis u' ui' s from rfl]
            rw [cursorVisibilityHandler_update sock now roomId vis u' ui' s m hm]
            simp [deliveries, recipients, Emit.out, InEvent.room, members]
  refine ⟨hd, ?_, ?_⟩
  · intro c hc
    rw [hd] at hc
    simp only [List.map_map, List.mem_map, Function.comp_apply] at hc
    obtain ⟨a, ha, hac⟩ := hc
    rw [← hac]
    exact ((mem_sdel _ _ _).mp ha).2
  · cases e with
    | joinRoom a b c => exact Option.noConfusion h
    | checkRoom a => exact Option.noConfusion h
    | disconnect => exact Option.noConfusion h
    | codeChanged roomId code =>
        have h' : some (OutEvent.codeChanged code) = some o := h
        injection h' with ho
        subst ho
        rfl
    | inputChanged roomId input =>
        have h' : some (OutEvent.inputChanged input) = some o := h
        injection h' with ho
        subst ho
        rfl
    | changeLanguage roomId language =>
        have h' : some (OutEvent.languageChanged language) = some o := h
        injection h' with ho
        subst ho
        rfl
    | runCode roomId output language input code =>
        have h' : some (OutEvent.codeRun output language input code) = some o := h
        injection h' with ho
        subst ho
        rfl
    | executionStatus roomId isRunning =>
        have h' : some (OutEvent.executionStatus isRunning) = some o := h
        injection h' with ho
        subst ho
        rfl
    | cursorMove roomId p u' ui' =>
        have h' : some (OutEvent.cursorMove sock p u' ui') = some o := h
        injection h' with ho
        subst ho
        rfl
    | cursorSelection roomId sel' u' ui' =>
        have h' : some (OutEvent.cursorSelection sock sel' u' ui') = some o := h
        injection h' with ho
        subst ho
        rfl
    | cursorVisibility roomId vis u' ui' =>
        have h' : some (OutEvent.cursorVisibility sock vis u' ui') = some o := h
        injection h' with ho
        subst ho
        rfl
    | callOffer roomId offer fromUserId =>
        have h' : some (OutEvent.callOffer offer fromUserId sock) = some o := h
        injection h' with ho
        subst ho
        rfl
    | callAnswer roomId answer fromUserId =>
        have h' : some (OutEvent.callAnswer answer fromUserId sock) = some o := h
        injection h' with ho
        subst ho
        rfl
    | iceCandidate roomId candidate fromUserId =>
        have h' : some (OutEvent.iceCandidate candidate fromUserId sock) = some o := h
        injection h' with ho
        subst ho
        rfl
    | callRequest roomId fromUserId =>
        have h' : some (OutEvent.callRequest fromUserId sock) = some o := h
        injection h' with ho
        subst ho
        rfl
    | callAccept roomId fromUserId =>
        have h' : some (OutEvent.callAccept fromUserId sock) = some o := h
        injection h' with ho
        subst ho
        rfl
    | callReject roomId fromUserId =>
        have h' : some (OutEvent.callReject fromUserId sock) = some o := h
        injection h' with ho
        subst ho
        rfl
    | callEnd roomId fromUserId =>
        have h' : some (OutEvent.callEnd fromUserId sock) = some o := h
        injection h' with ho
        subst ho
        rfl
    | userReadyForCall roomId fromUserId =>
        have h' : some (OutEvent.userReadyForCall fromUserId sock) = some o := h
        injection h' with ho
        subst ho
        rfl

/-- Witness for C6: a `change-language` from X in a two-member room is
delivered to Y only, renamed `language-changed`. -/
theorem fanout_delivery_witness :
    (deliveries (handle ("X") 4 (InEvent.changeLanguage ("r1") ("py")) (run [(("Y"), 0, InEvent.joinRoom ("r1") ("uY") true), (("X"), 1, InEvent.joinRoom ("r1") ("uX") false)])).1 (handle ("X") 4 (InEvent.changeLanguage ("r1") ("py")) (run [(("Y"), 0, InEvent.joinRoom ("r1") ("uY") true), (("X"), 1, InEvent.joinRoom ("r1") ("uX") false)])).2 =
       (sdel (members (run [(("Y"), 0, InEvent.joinRoom ("r1") ("uY") true), (("X"), 1, InEvent.joinRoom ("r1") ("uX") false)]) (InEvent.room (InEvent.changeLanguage ("r1") ("py")))) ("X")).map (fun c => (c, OutEvent.languageChanged ("py"))) ∧
     (∀ c, c ∈ (deliveries (handle ("X") 4 (InEvent.changeLanguage ("r1") ("py")) (run [(("Y"), 0, InEvent.joinRoom ("r1") ("uY") true), (("X"), 1, InEvent.joinRoom ("r1") ("uX") false)])).1 (handle ("X") 4 (InEvent.changeLanguage ("r1") ("py")) (run [(("Y"), 0, InEvent.joinRoom ("r1") ("uY") true), (("X"), 1, InEvent.joinRoom ("r1") ("uX") false)])).2).map Prod.fst → c ≠ ("X")) ∧
     outName (OutEvent.languageChanged ("py")) = (if inName (InEvent.changeLanguage ("r1") ("py")) = ("change-language") then ("language-changed") else if inName (InEvent.changeLanguage ("r1") ("py")) = ("run-code") then ("code-run") else inName (InEvent.changeLanguage ("r1") ("py")))) :=
  fanout_delivery [(("Y"), 0, InEvent.joinRoom ("r1") ("uY") true), (("X"), 1, InEvent.joinRoom ("r1") ("uX") false)] _ rfl ("X") 4 (InEvent.changeLanguage ("r1") ("py")) (OutEvent.languageChanged ("py")) rfl

end SocketServer
